import Mathlib

/-!
# TEMPered command-line utility (`utils/tempered.c`)

A shallow embedding of `utils/tempered.c`.  The program is a sequence of calls into
libtempered (device enumeration, open, read, per-sensor getters, close), into
tempered-util (calibration, dew point), into `getopt_long`, and of `printf` /
`fprintf( stderr, ...)` calls.  None of the libraries is part of the sources, so
they are a parameter of the embedding (`Backend`, `getopt_run`): every library
function is an arbitrary state transformer over an arbitrary library state `σ`.
The order of the two calls in the argument list of line 181, which C leaves to the
compiler, is a parameter as well.

The program itself is written in a state-and-output structure `Prog`: running a
piece of the program from a library state gives a return value, the library state
afterwards, and the list of events (library calls with their results, lines
printed on standard output, lines printed on the error stream) in program order.

Floating-point values are an arbitrary type `V`: the program never computes with
them, it only moves them between library calls and `printf`.  A `printf` call is
recorded as its format string together with its argument list.  Memory management
(`free`, `free_options`) has no observable effect here and is left out.
-/

namespace TEMPered

/-! ## Data model -/

/-- One node of `struct tempered_device_list`; the `next` pointer is the tail of the
Lean list that holds the nodes, and the `NULL` list is the empty list. -/
structure tempered_device_list where
  path : String
  type_name : String
  vendor_id : Nat
  product_id : Nat

/-- The `struct my_options` of the program.  A `NULL` pointer field is `none`. -/
structure my_options (V : Type) where
  enumerate : Bool
  batch : Bool
  calibtemp_count : Int
  calibtemp_values : Option (List V)
  calibrelh_count : Int
  calibrelh_values : Option (List V)
  devices : Option (List String)

/-- One argument of a `printf` call. -/
inductive Arg (V : Type) where
  | str (s : String)
  | int (i : Int)
  | flt (v : V)

/-- A library call together with what it returned. -/
inductive Call (H V : Type) where
  | tempered_init (ok : Bool)
  | tempered_enumerate (list : List tempered_device_list)
  | tempered_open (dev : tempered_device_list) (device : Option H)
  | tempered_read_sensors (device : H) (ok : Bool)
  | tempered_get_sensor_count (device : H) (count : Int)
  | tempered_get_sensor_type (device : H) (sensor : Int) (type : Nat)
  | tempered_get_device_path (device : H) (path : String)
  | tempered_get_temperature (device : H) (sensor : Int) (tempC : Option V)
  | tempered_get_humidity (device : H) (sensor : Int) (rel_hum : Option V)
  | tempered_error (device : H) (msg : String)
  | tempered_close (device : H)
  | tempered_free_device_list (list : List tempered_device_list)
  | tempered_exit (ok : Bool)
  | tempered_util__parse_calibration_string (s : String) (values : Option (List V))
  | tempered_util__calibrate_value (value : V) (count : Int) (values : List V) (result : V)
  | tempered_util__get_dew_point (tempC : V) (rel_hum : V) (result : V)

/-- An observable event of a run. -/
inductive Event (H V : Type) where
  | stdout (fmt : String) (args : List (Arg V))
  | stderr (fmt : String) (args : List (Arg V))
  | call (c : Call H V)

/-- What the text of the program leaves to its surroundings.  First the libraries it is
linked against, as state transformers over the library state `σ`.  `H` is the type of
open device handles (`tempered_device*`), `V` the type of `float` values.  A function
that reports failure through a `char **error` argument returns the error text in that
case.  The two `TEMPERED_SENSOR_TYPE_*` constants come from `tempered.h`.  Second the
one choice of the C compiler that a run shows: line 181 passes the calls
`tempered_get_device_path( device )` and `tempered_error( device )` as arguments of one
`fprintf`, and C does not fix which of the two is made first; `error_before_path` is
`true` when `tempered_error` is called first. -/
structure Backend (σ H V : Type) where
  TEMPERED_SENSOR_TYPE_TEMPERATURE : Nat
  TEMPERED_SENSOR_TYPE_HUMIDITY : Nat
  tempered_init : σ → Option String × σ
  tempered_enumerate : σ → (List tempered_device_list × String) × σ
  tempered_open : σ → tempered_device_list → Except String H × σ
  tempered_read_sensors : σ → H → Bool × σ
  tempered_get_sensor_count : σ → H → Int × σ
  tempered_get_sensor_type : σ → H → Int → Nat × σ
  tempered_get_device_path : σ → H → String × σ
  tempered_get_temperature : σ → H → Int → Option V × σ
  tempered_get_humidity : σ → H → Int → Option V × σ
  tempered_error : σ → H → String × σ
  tempered_close : σ → H → σ
  tempered_free_device_list : σ → List tempered_device_list → σ
  tempered_exit : σ → Option String × σ
  tempered_util__parse_calibration_string : String → Option (Int × List V)
  tempered_util__calibrate_value : V → Int → List V → V
  tempered_util__get_dew_point : V → V → V
  error_before_path : Bool

/-- What `getopt_long` does on the command line of one run: the values it returns on
its successive calls, each with the `optarg` it sets (once the list is used up it
returns `-1`), and the operands `argv[optind] .. argv[argc-1]` left at the end. -/
structure getopt_run where
  results : List (Int × String)
  operands : List String

/-! ## Programs -/

/-- The result of running a piece of the program. -/
structure Res (σ H V α : Type) where
  val : α
  st : σ
  out : List (Event H V)

/-- A piece of the program: from a library state to a result. -/
def Prog (σ H V α : Type) : Type := σ → Res σ H V α

instance instMonadProg (σ H V : Type) : Monad (Prog σ H V) where
  pure a := fun s => ⟨a, s, []⟩
  bind m f := fun s =>
    ⟨(f (m s).val (m s).st).val, (f (m s).val (m s).st).st,
      (m s).out ++ (f (m s).val (m s).st).out⟩

section Primitives

variable {σ H V : Type}

/-- The call `printf( fmt, args... )`. -/
def printf (fmt : String) (args : List (Arg V)) : Prog σ H V Unit :=
  fun s => ⟨(), s, [Event.stdout fmt args]⟩

/-- The call `fprintf( stderr, fmt, args... )`. -/
def eprintf (fmt : String) (args : List (Arg V)) : Prog σ H V Unit :=
  fun s => ⟨(), s, [Event.stderr fmt args]⟩

def tempered_init (b : Backend σ H V) : Prog σ H V (Option String) :=
  fun s => ⟨(b.tempered_init s).1, (b.tempered_init s).2,
    [Event.call (Call.tempered_init (b.tempered_init s).1.isNone)]⟩

def tempered_enumerate (b : Backend σ H V) :
    Prog σ H V (List tempered_device_list × String) :=
  fun s => ⟨(b.tempered_enumerate s).1, (b.tempered_enumerate s).2,
    [Event.call (Call.tempered_enumerate (b.tempered_enumerate s).1.1)]⟩

def tempered_open (b : Backend σ H V) (dev : tempered_device_list) :
    Prog σ H V (Except String H) :=
  fun s => ⟨(b.tempered_open s dev).1, (b.tempered_open s dev).2,
    [Event.call (Call.tempered_open dev (b.tempered_open s dev).1.toOption)]⟩

def tempered_read_sensors (b : Backend σ H V) (device : H) : Prog σ H V Bool :=
  fun s => ⟨(b.tempered_read_sensors s device).1, (b.tempered_read_sensors s device).2,
    [Event.call (Call.tempered_read_sensors device (b.tempered_read_sensors s device).1)]⟩

def tempered_get_sensor_count (b : Backend σ H V) (device : H) : Prog σ H V Int :=
  fun s => ⟨(b.tempered_get_sensor_count s device).1, (b.tempered_get_sensor_count s device).2,
    [Event.call (Call.tempered_get_sensor_count device (b.tempered_get_sensor_count s device).1)]⟩

def tempered_get_sensor_type (b : Backend σ H V) (device : H) (sensor : Int) :
    Prog σ H V Nat :=
  fun s => ⟨(b.tempered_get_sensor_type s device sensor).1,
    (b.tempered_get_sensor_type s device sensor).2,
    [Event.call (Call.tempered_get_sensor_type device sensor
      (b.tempered_get_sensor_type s device sensor).1)]⟩

def tempered_get_device_path (b : Backend σ H V) (device : H) : Prog σ H V String :=
  fun s => ⟨(b.tempered_get_device_path s device).1, (b.tempered_get_device_path s device).2,
    [Event.call (Call.tempered_get_device_path device (b.tempered_get_device_path s device).1)]⟩

def tempered_get_temperature (b : Backend σ H V) (device : H) (sensor : Int) :
    Prog σ H V (Option V) :=
  fun s => ⟨(b.tempered_get_temperature s device sensor).1,
    (b.tempered_get_temperature s device sensor).2,
    [Event.call (Call.tempered_get_temperature device sensor
      (b.tempered_get_temperature s device sensor).1)]⟩

def tempered_get_humidity (b : Backend σ H V) (device : H) (sensor : Int) :
    Prog σ H V (Option V) :=
  fun s => ⟨(b.tempered_get_humidity s device sensor).1,
    (b.tempered_get_humidity s device sensor).2,
    [Event.call (Call.tempered_get_humidity device sensor
      (b.tempered_get_humidity s device sensor).1)]⟩

def tempered_error (b : Backend σ H V) (device : H) : Prog σ H V String :=
  fun s => ⟨(b.tempered_error s device).1, (b.tempered_error s device).2,
    [Event.call (Call.tempered_error device (b.tempered_error s device).1)]⟩

def tempered_close (b : Backend σ H V) (device : H) : Prog σ H V Unit :=
  fun s => ⟨(), b.tempered_close s device, [Event.call (Call.tempered_close device)]⟩

def tempered_free_device_list (b : Backend σ H V) (list : List tempered_device_list) :
    Prog σ H V Unit :=
  fun s => ⟨(), b.tempered_free_device_list s list,
    [Event.call (Call.tempered_free_device_list list)]⟩

def tempered_exit (b : Backend σ H V) : Prog σ H V (Option String) :=
  fun s => ⟨(b.tempered_exit s).1, (b.tempered_exit s).2,
    [Event.call (Call.tempered_exit (b.tempered_exit s).1.isNone)]⟩

def tempered_util__parse_calibration_string (b : Backend σ H V) (str : String) :
    Prog σ H V (Option (Int × List V)) :=
  fun s => ⟨b.tempered_util__parse_calibration_string str, s,
    [Event.call (Call.tempered_util__parse_calibration_string str
      ((b.tempered_util__parse_calibration_string str).map Prod.snd))]⟩

def tempered_util__calibrate_value (b : Backend σ H V) (value : V) (count : Int)
    (values : List V) : Prog σ H V V :=
  fun s => ⟨b.tempered_util__calibrate_value value count values, s,
    [Event.call (Call.tempered_util__calibrate_value value count values
      (b.tempered_util__calibrate_value value count values))]⟩

def tempered_util__get_dew_point (b : Backend σ H V) (tempC rel_hum : V) : Prog σ H V V :=
  fun s => ⟨b.tempered_util__get_dew_point tempC rel_hum, s,
    [Event.call (Call.tempered_util__get_dew_point tempC rel_hum
      (b.tempered_util__get_dew_point tempC rel_hum))]⟩

end Primitives

/-! ## `print_device_sensor` -/

section Program

variable {σ H V : Type} [Inhabited V]

/-- The bit pattern of `~x` for a 32-bit `int` whose bit pattern is `x`. -/
def int_not (x : Nat) : Nat := 2 ^ 32 - 1 - x

/-- The local variables `type`, `tempC`, `rel_hum` of `print_device_sensor`. -/
structure sensor_locals (V : Type) where
  type : Nat
  tempC : V
  rel_hum : V

/-- Lines 128-136 of `print_device_sensor`: the temperature block. -/
def print_device_sensor_temperature (b : Backend σ H V) (options : my_options V)
    (device : H) (sensor : Int) (dev_path : String) (l : sensor_locals V) :
    Prog σ H V (sensor_locals V) :=
  if l.type &&& b.TEMPERED_SENSOR_TYPE_TEMPERATURE ≠ 0 then do
    let r ← tempered_get_temperature b device sensor
    match r with
    | none => do
      let err ← tempered_error b device
      eprintf "%s %i: Failed to get the temperature: %s\n"
        [Arg.str dev_path, Arg.int sensor, Arg.str err]
      pure { l with type := l.type &&& int_not b.TEMPERED_SENSOR_TYPE_TEMPERATURE }
    | some tempC =>
      match options.calibtemp_values with
      | some values => do
        let tempC ← tempered_util__calibrate_value b tempC options.calibtemp_count values
        pure { l with tempC := tempC }
      | none => pure { l with tempC := tempC }
  else pure l

/-- Lines 137-145 of `print_device_sensor`: the humidity block. -/
def print_device_sensor_humidity (b : Backend σ H V) (options : my_options V)
    (device : H) (sensor : Int) (dev_path : String) (l : sensor_locals V) :
    Prog σ H V (sensor_locals V) :=
  if l.type &&& b.TEMPERED_SENSOR_TYPE_HUMIDITY ≠ 0 then do
    let r ← tempered_get_humidity b device sensor
    match r with
    | none => do
      let err ← tempered_error b device
      eprintf "%s %i: Failed to get the humidity: %s\n"
        [Arg.str dev_path, Arg.int sensor, Arg.str err]
      pure { l with type := l.type &&& int_not b.TEMPERED_SENSOR_TYPE_HUMIDITY }
    | some rel_hum =>
      match options.calibrelh_values with
      | some values => do
        let rel_hum ← tempered_util__calibrate_value b rel_hum options.calibrelh_count values
        pure { l with rel_hum := rel_hum }
      | none => pure { l with rel_hum := rel_hum }
  else pure l

/-- Lines 146-164 of `print_device_sensor`: the line written to standard output. -/
def print_device_sensor_output (b : Backend σ H V) (options : my_options V)
    (sensor : Int) (dev_path : String) (l : sensor_locals V) : Prog σ H V Unit :=
  if l.type &&& b.TEMPERED_SENSOR_TYPE_TEMPERATURE ≠ 0
      ∧ l.type &&& b.TEMPERED_SENSOR_TYPE_HUMIDITY ≠ 0 then
    if options.batch then do
      let dew ← tempered_util__get_dew_point b l.tempC l.rel_hum
      printf "'%s', %.2f, %.2f, %.2f\n"
        [Arg.str dev_path, Arg.flt l.tempC, Arg.flt l.rel_hum, Arg.flt dew]
    else do
      let dew ← tempered_util__get_dew_point b l.tempC l.rel_hum
      printf "%s %i: temperature %.2f C, relative humidity %.1f%%, dew point %.1f C\n"
        [Arg.str dev_path, Arg.int sensor, Arg.flt l.tempC, Arg.flt l.rel_hum, Arg.flt dew]
  else if l.type &&& b.TEMPERED_SENSOR_TYPE_TEMPERATURE ≠ 0 then
    printf "%s %i: temperature %.2f C\n" [Arg.str dev_path, Arg.int sensor, Arg.flt l.tempC]
  else if l.type &&& b.TEMPERED_SENSOR_TYPE_HUMIDITY ≠ 0 then
    printf "%s %i: relative humidity %.1f%%\n"
      [Arg.str dev_path, Arg.int sensor, Arg.flt l.rel_hum]
  else
    printf "%s %i: no sensor data available\n" [Arg.str dev_path, Arg.int sensor]

/-- The function `print_device_sensor` (lines 124-165).  The locals `tempC` and `rel_hum`
start uninitialised: they hold an arbitrary value, `default`. -/
def print_device_sensor (b : Backend σ H V) (options : my_options V) (device : H)
    (sensor : Int) : Prog σ H V Unit := do
  let type ← tempered_get_sensor_type b device sensor
  let dev_path ← tempered_get_device_path b device
  let l ← print_device_sensor_temperature b options device sensor dev_path
    ⟨type, default, default⟩
  let l ← print_device_sensor_humidity b options device sensor dev_path l
  print_device_sensor_output b options sensor dev_path l

/-- Lines 126-145 of `print_device_sensor`, all that comes before the line is written;
the value is `dev_path` and the locals at line 146. -/
def print_device_sensor_fetch (b : Backend σ H V) (options : my_options V) (device : H)
    (sensor : Int) : Prog σ H V (String × sensor_locals V) := do
  let type ← tempered_get_sensor_type b device sensor
  let dev_path ← tempered_get_device_path b device
  let l ← print_device_sensor_temperature b options device sensor dev_path
    ⟨type, default, default⟩
  let l ← print_device_sensor_humidity b options device sensor dev_path l
  pure (dev_path, l)

/-! ## `print_device` -/

/-- The loop `for ( sensor = 0; sensor < sensors; sensor++ )` of `print_device`
(lines 186-188), entered with the current value of `sensor`.  The first argument
bounds the number of iterations; `print_device` passes `sensors.toNat`, which the loop
never exceeds (`print_device_loop_fuel`). -/
def print_device_loop (b : Backend σ H V) (options : my_options V) (device : H)
    (sensors : Int) : Nat → Int → Prog σ H V Unit
  | 0, _ => pure ()
  | fuel + 1, sensor =>
    if sensor < sensors then do
      print_device_sensor b options device sensor
      print_device_loop b options device sensors fuel (sensor + 1)
    else pure ()

/-- The function `print_device` (lines 168-191).  In line 181 the two calls in the
argument list are made in the order `b.error_before_path` gives. -/
def print_device (b : Backend σ H V) (options : my_options V) (dev : tempered_device_list) :
    Prog σ H V Unit :=
  if options.enumerate then
    printf "%s : %s (USB IDs %04X:%04X)\n"
      [Arg.str dev.path, Arg.str dev.type_name, Arg.int dev.vendor_id, Arg.int dev.product_id]
  else do
    let r ← tempered_open b dev
    match r with
    | Except.error error =>
      eprintf "%s: Could not open device: %s\n" [Arg.str dev.path, Arg.str error]
    | Except.ok device => do
      let ok ← tempered_read_sensors b device
      if !ok then
        if b.error_before_path then do
          let err ← tempered_error b device
          let path ← tempered_get_device_path b device
          eprintf "%s: Failed to read the sensors: %s\n" [Arg.str path, Arg.str err]
        else do
          let path ← tempered_get_device_path b device
          let err ← tempered_error b device
          eprintf "%s: Failed to read the sensors: %s\n" [Arg.str path, Arg.str err]
      else do
        let sensors ← tempered_get_sensor_count b device
        print_device_loop b options device sensors sensors.toNat 0
      tempered_close b device

/-! ## `parse_options` -/

/-- The usage text printed by `show_help` (lines 29-43). -/
def usage_text : String :=
  "Usage: tempered [options] [device-path...]\n" ++
  "\n" ++
  "Known options:\n" ++
  "    -h\n" ++
  "    --help                 Show this help text\n" ++
  "    -e\n" ++
  "    --enumerate            Enumerate the found devices without reading them.\n" ++
  "    -b\n" ++
  "    --batch                Use batch output format.\n" ++
  "    -c <cal>\n" ++
  "    --calibrate-temp <cal> Calibrate the measured temperature.\n" ++
  "    -r <cal>\n" ++
  "    --calibrate-relh <cal> Calibrate the measured relative humidity.\n"

/-- The function `show_help` (lines 27-44). -/
def show_help : Prog σ H V Unit := printf usage_text []

/-- The locals of `parse_options` that its option loop assigns. -/
structure parse_locals where
  enumerate : Bool
  batch : Bool
  calibtemp_string : Option String
  calibrelh_string : Option String

/-- The value `getopt_long` returns for the option character `c`. -/
def opt_char (c : Char) : Int := (c.toNat : Int)

/-- The loop `while ( true )` of `parse_options` (lines 68-99) over the values
`getopt_long` returns.  The result `none` is the `return NULL` of the loop body,
`some l` is the state of the locals when the loop is left through `break`. -/
def parse_options_loop : List (Int × String) → parse_locals →
    Prog σ H V (Option parse_locals)
  | [], l => pure (some l)
  | (opt, optarg) :: rest, l =>
    if opt = -1 then pure (some l)
    else if opt = opt_char '?' then pure none
    else if opt = opt_char 'h' then do
      show_help
      pure none
    else if opt = opt_char 'e' then parse_options_loop rest { l with enumerate := true }
    else if opt = opt_char 'b' then parse_options_loop rest { l with batch := true }
    else if opt = opt_char 'c' then
      parse_options_loop rest { l with calibtemp_string := some optarg }
    else if opt = opt_char 'r' then
      parse_options_loop rest { l with calibrelh_string := some optarg }
    else do
      eprintf "Error: invalid option found." []
      pure none

/-- Lines 100-105 and 106-111 of `parse_options`: one calibration string, if given, is
parsed.  The result `none` is the `return NULL`; otherwise the count and the values
pointer (still `0` and `NULL` when no string was given). -/
def parse_options_calibration (b : Backend σ H V) :
    Option String → Prog σ H V (Option (Int × Option (List V)))
  | none => pure (some (0, none))
  | some str => do
    let r ← tempered_util__parse_calibration_string b str
    match r with
    | none => pure none
    | some (count, values) => pure (some (count, some values))

/-- The function `parse_options` (lines 46-121); `none` is the `NULL` result. -/
def parse_options (b : Backend σ H V) (g : getopt_run) :
    Prog σ H V (Option (my_options V)) := do
  let r ← parse_options_loop g.results ⟨false, false, none, none⟩
  match r with
  | none => pure none
  | some l => do
    let ct ← parse_options_calibration b l.calibtemp_string
    match ct with
    | none => pure none
    | some (calibtemp_count, calibtemp_values) => do
      let cr ← parse_options_calibration b l.calibrelh_string
      match cr with
      | none => pure none
      | some (calibrelh_count, calibrelh_values) =>
        pure (some ⟨l.enumerate, l.batch, calibtemp_count, calibtemp_values,
          calibrelh_count, calibrelh_values,
          if g.operands = [] then none else some g.operands⟩)

/-! ## `main` -/

/-- The inner loop of `main` (lines 219-225): the scan of the device list for the
requested path; the result is the final value of `found`. -/
def main_find (b : Backend σ H V) (options : my_options V) (path : String) :
    List tempered_device_list → Prog σ H V Bool
  | [] => pure false
  | dev :: next =>
    if dev.path = path then do
      print_device b options dev
      pure true
    else main_find b options path next

/-- The outer loop of `main` (lines 216-229) over the requested paths. -/
def main_requested (b : Backend σ H V) (options : my_options V)
    (list : List tempered_device_list) : List String → Prog σ H V Unit
  | [] => pure ()
  | path :: rest => do
    let found ← main_find b options path list
    if !found then
      eprintf "%s: TEMPered device not found or ignored.\n" [Arg.str path]
    main_requested b options list rest

/-- The loop of `main` over all the devices (lines 234-236). -/
def main_all (b : Backend σ H V) (options : my_options V) :
    List tempered_device_list → Prog σ H V Unit
  | [] => pure ()
  | dev :: next => do
    print_device b options dev
    main_all b options next

/-- Lines 213-237 of `main`: the devices are printed. -/
def main_devices (b : Backend σ H V) (options : my_options V)
    (list : List tempered_device_list) : Prog σ H V Unit :=
  match options.devices with
  | some devices => main_requested b options list devices
  | none => main_all b options list

/-- The function `main` (lines 193-248); the value is the exit code. -/
def main (b : Backend σ H V) (g : getopt_run) : Prog σ H V Int := do
  let options ← parse_options b g
  match options with
  | none => pure 1
  | some options => do
    let r ← tempered_init b
    match r with
    | some error => do
      eprintf "Failed to initialize libtempered: %s\n" [Arg.str error]
      pure 1
    | none => do
      let r ← tempered_enumerate b
      if r.1.isEmpty then
        eprintf "Failed to enumerate devices: %s\n" [Arg.str r.2]
      else do
        main_devices b options r.1
        tempered_free_device_list b r.1
      let r ← tempered_exit b
      match r with
      | some error => do
        eprintf "%s\n" [Arg.str error]
        pure 1
      | none => pure 0

/-! ## Specification-side definitions -/

/-- The programs of a list run one after the other, each from the library state the
previous one left. -/
def seq_all : List (Prog σ H V Unit) → Prog σ H V Unit
  | [] => pure ()
  | m :: ms => do
    m
    seq_all ms

/-- The Device Selector as the specification words it (section 4.4): without a
request every descriptor in enumeration order, each found; with a request the
requested paths in the order given, each with the first descriptor whose path is
equal, or with none. -/
def select (all : List tempered_device_list) :
    Option (List String) → List (String × Option tempered_device_list)
  | none => all.map (fun dev => (dev.path, some dev))
  | some requested =>
    requested.map (fun path => (path, all.find? (fun dev => decide (dev.path = path))))

/-- What the caller does with one entry of the selection: a found device is printed,
an unmatched path is reported on the error stream. -/
def report (b : Backend σ H V) (options : my_options V) :
    String × Option tempered_device_list → Prog σ H V Unit
  | (_, some dev) => print_device b options dev
  | (path, none) => eprintf "%s: TEMPered device not found or ignored.\n" [Arg.str path]

/-- The Calibration Engine as the specification words it (section 4.2): an absent
table is the identity, a present one is applied by `tempered_util__calibrate_value`. -/
def apply_calibration (b : Backend σ H V) (count : Int) (table : Option (List V))
    (raw : V) : V :=
  match table with
  | none => raw
  | some values => b.tempered_util__calibrate_value raw count values

/-- The calls of the calibration function that go with `apply_calibration`: none for
an absent table, one for a present table. -/
def calibration_calls (b : Backend σ H V) (count : Int) (table : Option (List V))
    (raw : V) : List (Event H V) :=
  match table with
  | none => []
  | some values =>
    [Event.call (Call.tempered_util__calibrate_value raw count values
      (b.tempered_util__calibrate_value raw count values))]

/-- The line `print_device` writes in enumerate mode. -/
def enumerate_line (dev : tempered_device_list) : Event H V :=
  Event.stdout "%s : %s (USB IDs %04X:%04X)\n"
    [Arg.str dev.path, Arg.str dev.type_name, Arg.int dev.vendor_id, Arg.int dev.product_id]

/-- The warning `main` writes for a requested path that no device has. -/
def not_found_line (path : String) : Event H V :=
  Event.stderr "%s: TEMPered device not found or ignored.\n" [Arg.str path]

/-- What one entry of the selection gives in enumerate mode: the line of a found
device, the warning for an unmatched path. -/
def enumerate_report : String × Option tempered_device_list → Event H V
  | (_, some dev) => enumerate_line dev
  | (path, none) => not_found_line path

/-- The line of one sensor as the specification words it (section 4.5, step 4d): the
format is chosen by the flags left after the two fetches, both flags give the combined
line (batch or human layout) with the dew point of the two values, one flag gives the
line of its quantity, no flag gives `no sensor data available`. -/
def sensor_line (b : Backend σ H V) (options : my_options V) (sensor : Int)
    (dev_path : String) (l : sensor_locals V) : Event H V :=
  if l.type &&& b.TEMPERED_SENSOR_TYPE_TEMPERATURE ≠ 0
      ∧ l.type &&& b.TEMPERED_SENSOR_TYPE_HUMIDITY ≠ 0 then
    if options.batch then
      Event.stdout "'%s', %.2f, %.2f, %.2f\n"
        [Arg.str dev_path, Arg.flt l.tempC, Arg.flt l.rel_hum,
          Arg.flt (b.tempered_util__get_dew_point l.tempC l.rel_hum)]
    else
      Event.stdout "%s %i: temperature %.2f C, relative humidity %.1f%%, dew point %.1f C\n"
        [Arg.str dev_path, Arg.int sensor, Arg.flt l.tempC, Arg.flt l.rel_hum,
          Arg.flt (b.tempered_util__get_dew_point l.tempC l.rel_hum)]
  else if l.type &&& b.TEMPERED_SENSOR_TYPE_TEMPERATURE ≠ 0 then
    Event.stdout "%s %i: temperature %.2f C\n"
      [Arg.str dev_path, Arg.int sensor, Arg.flt l.tempC]
  else if l.type &&& b.TEMPERED_SENSOR_TYPE_HUMIDITY ≠ 0 then
    Event.stdout "%s %i: relative humidity %.1f%%\n"
      [Arg.str dev_path, Arg.int sensor, Arg.flt l.rel_hum]
  else
    Event.stdout "%s %i: no sensor data available\n" [Arg.str dev_path, Arg.int sensor]

/-- The constants of `tempered.h` are flags: two bit masks of an `int` with no bit in
common. -/
def flags_independent (b : Backend σ H V) : Prop :=
  b.TEMPERED_SENSOR_TYPE_TEMPERATURE < 2 ^ 32 ∧ b.TEMPERED_SENSOR_TYPE_HUMIDITY < 2 ^ 32 ∧
    b.TEMPERED_SENSOR_TYPE_TEMPERATURE &&& b.TEMPERED_SENSOR_TYPE_HUMIDITY = 0

/-- Lines 207-239 of `main`: the devices are enumerated and printed. -/
def main_enumerate (b : Backend σ H V) (options : my_options V) : Prog σ H V Unit := do
  let r ← tempered_enumerate b
  if r.1.isEmpty then
    eprintf "Failed to enumerate devices: %s\n" [Arg.str r.2]
  else do
    main_devices b options r.1
    tempered_free_device_list b r.1

/-- Lines 241-247 of `main`: the library is shut down and the exit code is chosen. -/
def main_exit (b : Backend σ H V) : Prog σ H V Int := do
  let r ← tempered_exit b
  match r with
  | some error => do
    eprintf "%s\n" [Arg.str error]
    pure 1
  | none => pure 0

end Program

/-! ## Observations on the events of a run -/

section Observations

variable {H V : Type}

/-- A line on standard output. -/
def is_stdout : Event H V → Bool
  | Event.stdout _ _ => true
  | _ => false

/-- A line on the error stream. -/
def is_stderr : Event H V → Bool
  | Event.stderr _ _ => true
  | _ => false

/-- A library call (libtempered or tempered-util). -/
def is_call : Event H V → Bool
  | Event.call _ => true
  | _ => false

/-- A `tempered_get_temperature` or `tempered_get_humidity` call that failed. -/
def is_failed_fetch : Event H V → Bool
  | Event.call (Call.tempered_get_temperature _ _ none) => true
  | Event.call (Call.tempered_get_humidity _ _ none) => true
  | _ => false

/-- A call of `tempered_util__calibrate_value`. -/
def is_calibrate : Event H V → Bool
  | Event.call (Call.tempered_util__calibrate_value _ _ _ _) => true
  | _ => false

/-- A call of `tempered_util__get_dew_point`. -/
def is_dew_point : Event H V → Bool
  | Event.call (Call.tempered_util__get_dew_point _ _ _) => true
  | _ => false

/-- A call of `tempered_open`, failed or not. -/
def is_open : Event H V → Bool
  | Event.call (Call.tempered_open _ _) => true
  | _ => false

/-- A call of `tempered_open` that gave a handle. -/
def is_open_ok : Event H V → Bool
  | Event.call (Call.tempered_open _ (some _)) => true
  | _ => false

/-- A call of `tempered_close`. -/
def is_close : Event H V → Bool
  | Event.call (Call.tempered_close _) => true
  | _ => false

/-- A call of `tempered_init`, `tempered_enumerate` or `tempered_exit`. -/
def is_lifecycle : Event H V → Bool
  | Event.call (Call.tempered_init _) => true
  | Event.call (Call.tempered_enumerate _) => true
  | Event.call (Call.tempered_exit _) => true
  | _ => false

/-- The warning for a requested path that no device has, whatever the path. -/
def is_not_found : Event H V → Bool
  | Event.stderr fmt _ => decide (fmt = "%s: TEMPered device not found or ignored.\n")
  | _ => false

/-- The temperature a line on standard output reports, by the format of the line. -/
def reported_temperature : Event H V → Option V
  | Event.stdout fmt [Arg.str _, Arg.flt t, Arg.flt _, Arg.flt _] =>
    if fmt = "'%s', %.2f, %.2f, %.2f\n" then some t else none
  | Event.stdout fmt [Arg.str _, Arg.int _, Arg.flt t, Arg.flt _, Arg.flt _] =>
    if fmt = "%s %i: temperature %.2f C, relative humidity %.1f%%, dew point %.1f C\n"
    then some t else none
  | Event.stdout fmt [Arg.str _, Arg.int _, Arg.flt t] =>
    if fmt = "%s %i: temperature %.2f C\n" then some t else none
  | _ => none

/-- The relative humidity a line on standard output reports, by the format of the
line. -/
def reported_humidity : Event H V → Option V
  | Event.stdout fmt [Arg.str _, Arg.flt _, Arg.flt h, Arg.flt _] =>
    if fmt = "'%s', %.2f, %.2f, %.2f\n" then some h else none
  | Event.stdout fmt [Arg.str _, Arg.int _, Arg.flt _, Arg.flt h, Arg.flt _] =>
    if fmt = "%s %i: temperature %.2f C, relative humidity %.1f%%, dew point %.1f C\n"
    then some h else none
  | Event.stdout fmt [Arg.str _, Arg.int _, Arg.flt h] =>
    if fmt = "%s %i: relative humidity %.1f%%\n" then some h else none
  | _ => none

/-- The events `print_device_sensor` can produce. -/
def sensor_event : Event H V → Bool
  | Event.stdout fmt _ =>
    decide (fmt = "'%s', %.2f, %.2f, %.2f\n"
      ∨ fmt = "%s %i: temperature %.2f C, relative humidity %.1f%%, dew point %.1f C\n"
      ∨ fmt = "%s %i: temperature %.2f C\n"
      ∨ fmt = "%s %i: relative humidity %.1f%%\n"
      ∨ fmt = "%s %i: no sensor data available\n")
  | Event.stderr fmt _ =>
    decide (fmt = "%s %i: Failed to get the temperature: %s\n"
      ∨ fmt = "%s %i: Failed to get the humidity: %s\n")
  | Event.call (Call.tempered_get_sensor_type _ _ _) => true
  | Event.call (Call.tempered_get_device_path _ _) => true
  | Event.call (Call.tempered_get_temperature _ _ _) => true
  | Event.call (Call.tempered_get_humidity _ _ _) => true
  | Event.call (Call.tempered_error _ _) => true
  | Event.call (Call.tempered_util__calibrate_value _ _ _ _) => true
  | Event.call (Call.tempered_util__get_dew_point _ _ _) => true
  | _ => false

/-- The events `print_device` can produce. -/
def device_event : Event H V → Bool
  | Event.stdout fmt args =>
    sensor_event (Event.stdout fmt args : Event H V)
      || decide (fmt = "%s : %s (USB IDs %04X:%04X)\n")
  | Event.stderr fmt args =>
    sensor_event (Event.stderr fmt args : Event H V)
      || decide (fmt = "%s: Could not open device: %s\n"
        ∨ fmt = "%s: Failed to read the sensors: %s\n")
  | Event.call (Call.tempered_open _ _) => true
  | Event.call (Call.tempered_read_sensors _ _) => true
  | Event.call (Call.tempered_get_sensor_count _ _) => true
  | Event.call (Call.tempered_close _) => true
  | Event.call c => sensor_event (Event.call c : Event H V)

end Observations

/-! ## A concrete library, for examples -/

section Examples

/-- Three devices on paths `a`, `b`, `c`. -/
def dev_a : tempered_device_list := ⟨"a", "TEMPerV1", 0x0c45, 0x7401⟩

def dev_b : tempered_device_list := ⟨"b", "TEMPerHUM", 0x0c45, 0x7402⟩

def dev_c : tempered_device_list := ⟨"c", "TEMPer2", 0x1130, 0x660c⟩

/-- A library whose state counts the calls made so far.  Device `c` cannot be opened,
device `b` cannot be read; every device has two sensors with both flags; the
temperature of sensor 0 cannot be fetched.  In line 181 `tempered_error` is called
first. -/
def demo_backend : Backend Nat String Int where
  TEMPERED_SENSOR_TYPE_TEMPERATURE := 1
  TEMPERED_SENSOR_TYPE_HUMIDITY := 2
  tempered_init := fun s => (none, s + 1)
  tempered_enumerate := fun s => (([dev_a, dev_b, dev_c], ""), s + 1)
  tempered_open := fun s dev =>
    (if dev.path = "c" then Except.error "busy" else Except.ok dev.path, s + 1)
  tempered_read_sensors := fun s device => (decide (device ≠ "b"), s + 1)
  tempered_get_sensor_count := fun s _ => (2, s + 1)
  tempered_get_sensor_type := fun s _ _ => (3, s + 1)
  tempered_get_device_path := fun s device => (device, s + 1)
  tempered_get_temperature := fun s _ sensor => (if sensor = 0 then none else some 21, s + 1)
  tempered_get_humidity := fun s _ _ => (some 40, s + 1)
  tempered_error := fun s _ => ("io", s + 1)
  tempered_close := fun s _ => s + 1
  tempered_free_device_list := fun s _ => s + 1
  tempered_exit := fun s => (none, s + 1)
  tempered_util__parse_calibration_string := fun _ => some (2, [0, 1])
  tempered_util__calibrate_value := fun v _ _ => v + 1
  tempered_util__get_dew_point := fun t h => t - h
  error_before_path := true

/-- Options as `parse_options` builds them from an empty command line. -/
def demo_options : my_options Int := ⟨false, false, 0, none, 0, none, none⟩

/-- Options of a run that requests the paths `z`, `b`, `a`. -/
def demo_requested : my_options Int := ⟨false, false, 0, none, 0, none, some ["z", "b", "a"]⟩

/-- Options of an enumerate-only run that requests the paths `z`, `b`, `a`. -/
def demo_enumerate : my_options Int := ⟨true, false, 0, none, 0, none, some ["z", "b", "a"]⟩

/-- The command line `tempered -h`. -/
def help_only : getopt_run := ⟨[(opt_char 'h', "")], []⟩

/-- The command line `tempered -x -h`: `getopt_long` reports the unknown option first. -/
def invalid_then_help : getopt_run := ⟨[(opt_char '?', ""), (opt_char 'h', "")], []⟩

/-- The command line `tempered -b -h a`. -/
def batch_then_help : getopt_run := ⟨[(opt_char 'b', ""), (opt_char 'h', "")], ["a"]⟩

end Examples

/-! ## Basic facts -/

section Basics

variable {σ H V : Type}

@[simp] theorem run_pure {α : Type} (a : α) (s : σ) :
    (pure a : Prog σ H V α) s = ⟨a, s, []⟩ := rfl

@[simp] theorem run_bind {α β : Type} (m : Prog σ H V α) (f : α → Prog σ H V β) (s : σ) :
    (m >>= f) s = ⟨(f (m s).val (m s).st).val, (f (m s).val (m s).st).st,
      (m s).out ++ (f (m s).val (m s).st).out⟩ := rfl

theorem testBit_int_not (T i : Nat) (hT : T < 2 ^ 32) :
    (int_not T).testBit i = (decide (i < 32) && !T.testBit i) := by
  unfold int_not
  rw [Nat.sub_sub, Nat.add_comm 1 T]
  exact Nat.testBit_two_pow_sub_succ hT i

/-- Clearing a flag clears it: `(x & ~T) & T` is zero. -/
theorem and_int_not_self (x T : Nat) : (x &&& int_not T) &&& T = 0 := by
  by_cases hT : T < 2 ^ 32
  · apply Nat.eq_of_testBit_eq
    intro i
    simp [Nat.testBit_and, testBit_int_not T i hT]
  · have h0 : int_not T = 0 := by unfold int_not; omega
    simp [h0]

/-- Clearing a flag leaves a flag with no common bit as it was. -/
theorem and_int_not_of_disjoint (x T F : Nat) (hT : T < 2 ^ 32) (hF : F < 2 ^ 32)
    (hTF : T &&& F = 0) : (x &&& int_not T) &&& F = x &&& F := by
  apply Nat.eq_of_testBit_eq
  intro i
  have hi : (T &&& F).testBit i = false := by rw [hTF]; exact Nat.zero_testBit i
  have hlt : F.testBit i = true → i < 32 := by
    intro hb
    by_contra hge
    have h1 : F < 2 ^ i := lt_of_lt_of_le hF (Nat.pow_le_pow_right (by decide) (by omega))
    rw [Nat.testBit_lt_two_pow h1] at hb
    exact Bool.noConfusion hb
  rw [Nat.testBit_and] at hi
  simp only [Nat.testBit_and, testBit_int_not T i hT]
  cases hx : x.testBit i <;> cases hf : F.testBit i <;> cases ht : T.testBit i <;>
    simp_all

/-- A flag that is set after bits were cleared was set before. -/
theorem and_ne_zero_of_and_and (x m T : Nat) (h : (x &&& m) &&& T ≠ 0) : x &&& T ≠ 0 := by
  intro h0
  apply h
  apply Nat.eq_of_testBit_eq
  intro i
  have hi : (x &&& T).testBit i = false := by rw [h0]; exact Nat.zero_testBit i
  rw [Nat.testBit_and] at hi
  simp only [Nat.testBit_and, Nat.zero_testBit]
  cases hx : x.testBit i <;> cases ht : T.testBit i <;> simp_all

end Basics

/-! ## The three blocks of `print_device_sensor` -/

section Blocks

variable {σ H V : Type}

theorem temperature_counts (b : Backend σ H V) (options : my_options V) (device : H)
    (sensor : Int) (path : String) (l : sensor_locals V) (s : σ) :
    List.countP is_stdout
        (print_device_sensor_temperature b options device sensor path l s).out = 0
    ∧ List.countP is_stderr
        (print_device_sensor_temperature b options device sensor path l s).out
      = List.countP is_failed_fetch
        (print_device_sensor_temperature b options device sensor path l s).out
    ∧ List.countP is_failed_fetch
        (print_device_sensor_temperature b options device sensor path l s).out ≤ 1
    ∧ ∀ e ∈ (print_device_sensor_temperature b options device sensor path l s).out,
        sensor_event e = true := by
  unfold print_device_sensor_temperature
  split
  · simp only [run_bind]
    cases ht : (tempered_get_temperature b device sensor s).val with
    | none =>
      simp [tempered_get_temperature, tempered_error, eprintf, is_stdout, is_stderr,
        is_failed_fetch, sensor_event, List.countP_cons] at ht ⊢
      simp [ht]
    | some v =>
      simp [tempered_get_temperature, is_stdout, is_stderr,
        is_failed_fetch, sensor_event, List.countP_cons] at ht ⊢
      cases hc : options.calibtemp_values <;>
        simp [ht, tempered_util__calibrate_value, is_stdout, is_stderr,
          is_failed_fetch, sensor_event, List.countP_cons]
  · simp

theorem humidity_counts (b : Backend σ H V) (options : my_options V) (device : H)
    (sensor : Int) (path : String) (l : sensor_locals V) (s : σ) :
    List.countP is_stdout
        (print_device_sensor_humidity b options device sensor path l s).out = 0
    ∧ List.countP is_stderr
        (print_device_sensor_humidity b options device sensor path l s).out
      = List.countP is_failed_fetch
        (print_device_sensor_humidity b options device sensor path l s).out
    ∧ List.countP is_failed_fetch
        (print_device_sensor_humidity b options device sensor path l s).out ≤ 1
    ∧ ∀ e ∈ (print_device_sensor_humidity b options device sensor path l s).out,
        sensor_event e = true := by
  unfold print_device_sensor_humidity
  split
  · simp only [run_bind]
    cases ht : (tempered_get_humidity b device sensor s).val with
    | none =>
      simp [tempered_get_humidity, tempered_error, eprintf, is_stdout, is_stderr,
        is_failed_fetch, sensor_event, List.countP_cons] at ht ⊢
      simp [ht]
    | some v =>
      simp [tempered_get_humidity, is_stdout, is_stderr,
        is_failed_fetch, sensor_event, List.countP_cons] at ht ⊢
      cases hc : options.calibrelh_values <;>
        simp [ht, tempered_util__calibrate_value, is_stdout, is_stderr,
          is_failed_fetch, sensor_event, List.countP_cons]
  · simp

theorem output_counts (b : Backend σ H V) (options : my_options V)
    (sensor : Int) (path : String) (l : sensor_locals V) (s : σ) :
    List.countP is_stdout (print_device_sensor_output b options sensor path l s).out = 1
    ∧ List.countP is_stderr (print_device_sensor_output b options sensor path l s).out = 0
    ∧ List.countP is_failed_fetch
        (print_device_sensor_output b options sensor path l s).out = 0
    ∧ (∀ e ∈ (print_device_sensor_output b options sensor path l s).out,
        sensor_event e = true)
    ∧ (print_device_sensor_output b options sensor path l s).st = s := by
  unfold print_device_sensor_output
  split_ifs <;>
    simp [tempered_util__get_dew_point, printf, is_stdout, is_stderr, is_failed_fetch,
      sensor_event, List.countP_cons]

theorem temperature_cases (b : Backend σ H V) (options : my_options V) (device : H)
    (sensor : Int) (path : String) (l : sensor_locals V) (s : σ) :
    (l.type &&& b.TEMPERED_SENSOR_TYPE_TEMPERATURE = 0
      ∧ print_device_sensor_temperature b options device sensor path l s = ⟨l, s, []⟩)
    ∨ (∃ msg : String,
        (print_device_sensor_temperature b options device sensor path l s).val
          = ⟨l.type &&& int_not b.TEMPERED_SENSOR_TYPE_TEMPERATURE, l.tempC, l.rel_hum⟩
        ∧ (print_device_sensor_temperature b options device sensor path l s).out
          = [Event.call (Call.tempered_get_temperature device sensor none),
              Event.call (Call.tempered_error device msg),
              Event.stderr "%s %i: Failed to get the temperature: %s\n"
                [Arg.str path, Arg.int sensor, Arg.str msg]])
    ∨ (∃ v : V,
        (print_device_sensor_temperature b options device sensor path l s).val
          = ⟨l.type, apply_calibration b options.calibtemp_count options.calibtemp_values v,
              l.rel_hum⟩
        ∧ (print_device_sensor_temperature b options device sensor path l s).out
          = Event.call (Call.tempered_get_temperature device sensor (some v))
              :: calibration_calls b options.calibtemp_count options.calibtemp_values v) := by
  by_cases hflag : l.type &&& b.TEMPERED_SENSOR_TYPE_TEMPERATURE = 0
  · left
    simp [print_device_sensor_temperature, hflag]
  · right
    rcases hfetch : b.tempered_get_temperature s device sensor with ⟨r, s'⟩
    cases r with
    | none =>
      left
      refine ⟨(b.tempered_error s' device).1, ?_⟩
      simp [print_device_sensor_temperature, hflag, tempered_get_temperature, hfetch,
        tempered_error, eprintf]
    | some v =>
      right
      refine ⟨v, ?_⟩
      cases hc : options.calibtemp_values <;>
        simp [print_device_sensor_temperature, hflag, tempered_get_temperature, hfetch,
          tempered_util__calibrate_value, apply_calibration, calibration_calls, hc]

theorem humidity_cases (b : Backend σ H V) (options : my_options V) (device : H)
    (sensor : Int) (path : String) (l : sensor_locals V) (s : σ) :
    (l.type &&& b.TEMPERED_SENSOR_TYPE_HUMIDITY = 0
      ∧ print_device_sensor_humidity b options device sensor path l s = ⟨l, s, []⟩)
    ∨ (∃ msg : String,
        (print_device_sensor_humidity b options device sensor path l s).val
          = ⟨l.type &&& int_not b.TEMPERED_SENSOR_TYPE_HUMIDITY, l.tempC, l.rel_hum⟩
        ∧ (print_device_sensor_humidity b options device sensor path l s).out
          = [Event.call (Call.tempered_get_humidity device sensor none),
              Event.call (Call.tempered_error device msg),
              Event.stderr "%s %i: Failed to get the humidity: %s\n"
                [Arg.str path, Arg.int sensor, Arg.str msg]])
    ∨ (∃ v : V,
        (print_device_sensor_humidity b options device sensor path l s).val
          = ⟨l.type, l.tempC,
              apply_calibration b options.calibrelh_count options.calibrelh_values v⟩
        ∧ (print_device_sensor_humidity b options device sensor path l s).out
          = Event.call (Call.tempered_get_humidity device sensor (some v))
              :: calibration_calls b options.calibrelh_count options.calibrelh_values v) := by
  by_cases hflag : l.type &&& b.TEMPERED_SENSOR_TYPE_HUMIDITY = 0
  · left
    simp [print_device_sensor_humidity, hflag]
  · right
    rcases hfetch : b.tempered_get_humidity s device sensor with ⟨r, s'⟩
    cases r with
    | none =>
      left
      refine ⟨(b.tempered_error s' device).1, ?_⟩
      simp [print_device_sensor_humidity, hflag, tempered_get_humidity, hfetch,
        tempered_error, eprintf]
    | some v =>
      right
      refine ⟨v, ?_⟩
      cases hc : options.calibrelh_values <;>
        simp [print_device_sensor_humidity, hflag, tempered_get_humidity, hfetch,
          tempered_util__calibrate_value, apply_calibration, calibration_calls, hc]

/-- What the line on standard output reports comes from the locals, and a quantity is
reported only when its flag is set at line 146. -/
theorem output_reports (b : Backend σ H V) (options : my_options V)
    (sensor : Int) (path : String) (l : sensor_locals V) (s : σ) (e : Event H V)
    (he : e ∈ (print_device_sensor_output b options sensor path l s).out) :
    is_calibrate e = false
    ∧ (∀ v, reported_temperature e = some v →
        l.type &&& b.TEMPERED_SENSOR_TYPE_TEMPERATURE ≠ 0 ∧ v = l.tempC)
    ∧ (∀ v, reported_humidity e = some v →
        l.type &&& b.TEMPERED_SENSOR_TYPE_HUMIDITY ≠ 0 ∧ v = l.rel_hum) := by
  unfold print_device_sensor_output at he
  split_ifs at he with h1 h2 h3 h4 <;>
    simp [tempered_util__get_dew_point, printf] at he
  all_goals rcases he with rfl | rfl
  all_goals simp_all [is_calibrate, reported_temperature, reported_humidity]

theorem temperature_block_ok (b : Backend σ H V) (options : my_options V) (device : H)
    (sensor : Int) (path : String) (l : sensor_locals V) (s s' : σ) (v : V)
    (hflag : l.type &&& b.TEMPERED_SENSOR_TYPE_TEMPERATURE ≠ 0)
    (hfetch : b.tempered_get_temperature s device sensor = (some v, s')) :
    print_device_sensor_temperature b options device sensor path l s
      = ⟨⟨l.type, apply_calibration b options.calibtemp_count options.calibtemp_values v,
            l.rel_hum⟩, s',
          Event.call (Call.tempered_get_temperature device sensor (some v))
            :: calibration_calls b options.calibtemp_count options.calibtemp_values v⟩ := by
  cases hc : options.calibtemp_values <;>
    simp [print_device_sensor_temperature, hflag, tempered_get_temperature, hfetch,
      tempered_util__calibrate_value, apply_calibration, calibration_calls, hc]

theorem humidity_block_ok (b : Backend σ H V) (options : my_options V) (device : H)
    (sensor : Int) (path : String) (l : sensor_locals V) (s s' : σ) (v : V)
    (hflag : l.type &&& b.TEMPERED_SENSOR_TYPE_HUMIDITY ≠ 0)
    (hfetch : b.tempered_get_humidity s device sensor = (some v, s')) :
    print_device_sensor_humidity b options device sensor path l s
      = ⟨⟨l.type, l.tempC,
            apply_calibration b options.calibrelh_count options.calibrelh_values v⟩, s',
          Event.call (Call.tempered_get_humidity device sensor (some v))
            :: calibration_calls b options.calibrelh_count options.calibrelh_values v⟩ := by
  cases hc : options.calibrelh_values <;>
    simp [print_device_sensor_humidity, hflag, tempered_get_humidity, hfetch,
      tempered_util__calibrate_value, apply_calibration, calibration_calls, hc]

/-- The lines 146-164 fetch nothing: their events are the line and the dew-point
call. -/
theorem output_events (b : Backend σ H V) (options : my_options V)
    (sensor : Int) (path : String) (l : sensor_locals V) (s : σ) :
    ∀ e ∈ (print_device_sensor_output b options sensor path l s).out,
      is_stdout e = true ∨ is_dew_point e = true := by
  unfold print_device_sensor_output
  split_ifs <;>
    simp [tempered_util__get_dew_point, printf, is_stdout, is_dew_point]

/-- The lines 146-164 write the line of the specification and no other line on standard
output. -/
theorem output_stdout (b : Backend σ H V) (options : my_options V)
    (sensor : Int) (path : String) (l : sensor_locals V) (s : σ) :
    List.filter is_stdout (print_device_sensor_output b options sensor path l s).out
      = [sensor_line b options sensor path l] := by
  unfold print_device_sensor_output sensor_line
  split_ifs <;>
    simp [tempered_util__get_dew_point, printf, is_stdout, List.filter_cons]

end Blocks

/-! ## Sequences of programs -/

section Sequences

variable {σ H V : Type}

@[simp] theorem seq_all_nil (s : σ) : (seq_all [] : Prog σ H V Unit) s = ⟨(), s, []⟩ := rfl

@[simp] theorem seq_all_cons (m : Prog σ H V Unit) (ms : List (Prog σ H V Unit)) (s : σ) :
    seq_all (m :: ms) s
      = ⟨(), (seq_all ms (m s).st).st, (m s).out ++ (seq_all ms (m s).st).out⟩ := rfl

theorem seq_all_countP (p : Event H V → Bool) (k : Nat) (ms : List (Prog σ H V Unit))
    (h : ∀ m ∈ ms, ∀ s, List.countP p (m s).out = k) (s : σ) :
    List.countP p (seq_all ms s).out = ms.length * k := by
  induction ms generalizing s with
  | nil => simp
  | cons m ms ih =>
    have h1 := h m (List.mem_cons_self m ms) s
    have h2 := ih (fun m' hm' => h m' (List.mem_cons_of_mem m hm')) (m s).st
    simp only [seq_all_cons, List.countP_append, h1, h2, List.length_cons]
    ring

theorem seq_all_forall (P : Event H V → Prop) (ms : List (Prog σ H V Unit))
    (h : ∀ m ∈ ms, ∀ s, ∀ e ∈ (m s).out, P e) (s : σ) :
    ∀ e ∈ (seq_all ms s).out, P e := by
  induction ms generalizing s with
  | nil => simp
  | cons m ms ih =>
    intro e he
    simp only [seq_all_cons, List.mem_append] at he
    rcases he with he | he
    · exact h m (List.mem_cons_self m ms) s e he
    · exact ih (fun m' hm' => h m' (List.mem_cons_of_mem m hm')) (m s).st e he

theorem sensor_event_device_event (e : Event H V) (h : sensor_event e = true) :
    device_event e = true := by
  cases e with
  | stdout fmt args => simp [device_event, h]
  | stderr fmt args => simp [device_event, h]
  | call c => cases c <;> simp_all [device_event, sensor_event]

end Sequences

/-! ## `print_device_sensor` and the sensor loop -/

section SensorLoop

variable {σ H V : Type} [Inhabited V]

theorem print_device_sensor_counts (b : Backend σ H V) (options : my_options V) (device : H)
    (sensor : Int) (s : σ) :
    List.countP is_stdout (print_device_sensor b options device sensor s).out = 1
    ∧ List.countP is_stderr (print_device_sensor b options device sensor s).out
      = List.countP is_failed_fetch (print_device_sensor b options device sensor s).out
    ∧ List.countP is_failed_fetch (print_device_sensor b options device sensor s).out ≤ 2
    ∧ ∀ e ∈ (print_device_sensor b options device sensor s).out, sensor_event e = true := by
  simp only [print_device_sensor, run_bind, List.countP_append, List.mem_append]
  generalize (tempered_get_sensor_type b device sensor s).st = s1
  generalize (tempered_get_sensor_type b device sensor s).val = type
  generalize hp : (tempered_get_device_path b device s1).val = path
  generalize hs2 : (tempered_get_device_path b device s1).st = s2
  obtain ⟨t1, t2, t3, t4⟩ :=
    temperature_counts b options device sensor path ⟨type, default, default⟩ s2
  generalize (print_device_sensor_temperature b options device sensor path
    ⟨type, default, default⟩ s2).st = s3 at *
  generalize (print_device_sensor_temperature b options device sensor path
    ⟨type, default, default⟩ s2).val = l3 at *
  obtain ⟨h1, h2, h3, h4⟩ := humidity_counts b options device sensor path l3 s3
  obtain ⟨o1, o2, o3, o4, _⟩ := output_counts b options sensor path
    (print_device_sensor_humidity b options device sensor path l3 s3).val
    (print_device_sensor_humidity b options device sensor path l3 s3).st
  refine ⟨?_, ?_, ?_, ?_⟩
  · simp [t1, h1, o1, tempered_get_sensor_type, tempered_get_device_path, is_stdout,
      List.countP_cons]
  · simp [t2, h2, o2, o3, tempered_get_sensor_type, tempered_get_device_path, is_stderr,
      is_failed_fetch, List.countP_cons]
  · simp only [o3, tempered_get_sensor_type, tempered_get_device_path, is_failed_fetch,
      List.countP_cons, List.countP_nil]
    simp
    omega
  · intro e he
    rcases he with he | he | he | he | he
    · simp [tempered_get_sensor_type] at he
      simp [he, sensor_event]
    · simp [tempered_get_device_path] at he
      simp [he, sensor_event]
    · exact t4 e he
    · exact h4 e he
    · exact o4 e he

theorem print_device_loop_eq (b : Backend σ H V) (options : my_options V) (device : H)
    (sensors : Int) (fuel : Nat) (sensor : Int) (hfuel : (sensors - sensor).toNat ≤ fuel) :
    print_device_loop b options device sensors fuel sensor
      = seq_all ((List.range (sensors - sensor).toNat).map
          (fun (i : Nat) => print_device_sensor b options device (sensor + (i : Int)))) := by
  induction fuel generalizing sensor with
  | zero =>
    have h0 : (sensors - sensor).toNat = 0 := by omega
    simp [h0, print_device_loop, seq_all]
  | succ fuel ih =>
    by_cases hlt : sensor < sensors
    · have hn : (sensors - sensor).toNat = (sensors - (sensor + 1)).toNat + 1 := by omega
      have hih := ih (sensor + 1) (by omega)
      have hshift : (fun (i : Nat) => print_device_sensor b options device (sensor + 1 + (i : Int)))
          = (fun (i : Nat) => print_device_sensor b options device (sensor + (i : Int)))
            ∘ Nat.succ := by
        funext i
        have hi : sensor + 1 + (i : Int) = sensor + ((i : Int) + 1) := by ring
        simp only [Function.comp, Nat.succ_eq_add_one, Nat.cast_add, Nat.cast_one, hi]
      rw [hn, List.range_succ_eq_map, List.map_cons, List.map_map, ← hshift]
      simp only [print_device_loop, hlt, if_true, hih, seq_all, Nat.cast_zero, add_zero]
    · have h0 : (sensors - sensor).toNat = 0 := by omega
      simp [h0, print_device_loop, hlt, seq_all]

end SensorLoop

/-! ## `print_device` -/

section Device

variable {σ H V : Type} [Inhabited V]

omit [Inhabited V] in
theorem seq_all_countP_eq (p q : Event H V → Bool) (ms : List (Prog σ H V Unit))
    (h : ∀ m ∈ ms, ∀ s, List.countP p (m s).out = List.countP q (m s).out) (s : σ) :
    List.countP p (seq_all ms s).out = List.countP q (seq_all ms s).out := by
  induction ms generalizing s with
  | nil => simp
  | cons m ms ih =>
    have h1 := h m (List.mem_cons_self m ms) s
    have h2 := ih (fun m' hm' => h m' (List.mem_cons_of_mem m hm')) (m s).st
    simp only [seq_all_cons, List.countP_append, h1, h2]

/-- The bound `sensors.toNat` that `print_device` gives the sensor loop is enough: the
loop is the sequence of `print_device_sensor` on the indices `0 .. sensors - 1`. -/
theorem print_device_loop_fuel (b : Backend σ H V) (options : my_options V) (device : H)
    (sensors : Int) :
    print_device_loop b options device sensors sensors.toNat 0
      = seq_all ((List.range sensors.toNat).map
          (fun (i : Nat) => print_device_sensor b options device (i : Int))) := by
  have h := print_device_loop_eq b options device sensors sensors.toNat 0 (by simp)
  simpa using h

theorem print_device_loop_events (b : Backend σ H V) (options : my_options V) (device : H)
    (sensors : Int) (s : σ) :
    ∀ e ∈ (print_device_loop b options device sensors sensors.toNat 0 s).out,
      sensor_event e = true := by
  rw [print_device_loop_fuel]
  apply seq_all_forall
  intro m hm s' e he
  obtain ⟨i, _, rfl⟩ := List.mem_map.mp hm
  exact (print_device_sensor_counts b options device i s').2.2.2 e he

theorem print_device_enumerate (b : Backend σ H V) (options : my_options V)
    (dev : tempered_device_list) (s : σ) (h : options.enumerate = true) :
    print_device b options dev s = ⟨(), s, [enumerate_line dev]⟩ := by
  simp [print_device, h, printf, enumerate_line]

theorem print_device_open_failed (b : Backend σ H V) (options : my_options V)
    (dev : tempered_device_list) (s s1 : σ) (err : String) (h : options.enumerate = false)
    (hopen : b.tempered_open s dev = (Except.error err, s1)) :
    print_device b options dev s =
      ⟨(), s1, [Event.call (Call.tempered_open dev none),
        Event.stderr "%s: Could not open device: %s\n" [Arg.str dev.path, Arg.str err]]⟩ := by
  simp [print_device, h, tempered_open, hopen, eprintf, Except.toOption]

theorem print_device_read_failed (b : Backend σ H V) (options : my_options V)
    (dev : tempered_device_list) (s s1 s2 s3 s4 : σ) (device : H) (path msg : String)
    (h : options.enumerate = false) (horder : b.error_before_path = false)
    (hopen : b.tempered_open s dev = (Except.ok device, s1))
    (hread : b.tempered_read_sensors s1 device = (false, s2))
    (hpath : b.tempered_get_device_path s2 device = (path, s3))
    (herr : b.tempered_error s3 device = (msg, s4)) :
    print_device b options dev s =
      ⟨(), b.tempered_close s4 device,
        [Event.call (Call.tempered_open dev (some device)),
          Event.call (Call.tempered_read_sensors device false),
          Event.call (Call.tempered_get_device_path device path),
          Event.call (Call.tempered_error device msg),
          Event.stderr "%s: Failed to read the sensors: %s\n" [Arg.str path, Arg.str msg],
          Event.call (Call.tempered_close device)]⟩ := by
  simp [print_device, h, horder, tempered_open, hopen, tempered_read_sensors, hread,
    tempered_get_device_path, hpath, tempered_error, herr, eprintf, tempered_close,
    Except.toOption]

theorem print_device_read_failed_error_first (b : Backend σ H V) (options : my_options V)
    (dev : tempered_device_list) (s s1 s2 s3 s4 : σ) (device : H) (path msg : String)
    (h : options.enumerate = false) (horder : b.error_before_path = true)
    (hopen : b.tempered_open s dev = (Except.ok device, s1))
    (hread : b.tempered_read_sensors s1 device = (false, s2))
    (herr : b.tempered_error s2 device = (msg, s3))
    (hpath : b.tempered_get_device_path s3 device = (path, s4)) :
    print_device b options dev s =
      ⟨(), b.tempered_close s4 device,
        [Event.call (Call.tempered_open dev (some device)),
          Event.call (Call.tempered_read_sensors device false),
          Event.call (Call.tempered_error device msg),
          Event.call (Call.tempered_get_device_path device path),
          Event.stderr "%s: Failed to read the sensors: %s\n" [Arg.str path, Arg.str msg],
          Event.call (Call.tempered_close device)]⟩ := by
  simp [print_device, h, horder, tempered_open, hopen, tempered_read_sensors, hread,
    tempered_get_device_path, hpath, tempered_error, herr, eprintf, tempered_close,
    Except.toOption]

/-- A failed `tempered_read_sensors`, whichever of the two calls of line 181 is made
first: the two calls in one of the two orders, the error line with what they returned,
and `tempered_close`. -/
theorem print_device_read_failed_any_order (b : Backend σ H V) (options : my_options V)
    (dev : tempered_device_list) (s s1 s2 : σ) (device : H)
    (h : options.enumerate = false)
    (hopen : b.tempered_open s dev = (Except.ok device, s1))
    (hread : b.tempered_read_sensors s1 device = (false, s2)) :
    ∃ path msg : String,
      (print_device b options dev s).out =
        [Event.call (Call.tempered_open dev (some device)),
          Event.call (Call.tempered_read_sensors device false),
          Event.call (Call.tempered_get_device_path device path),
          Event.call (Call.tempered_error device msg),
          Event.stderr "%s: Failed to read the sensors: %s\n" [Arg.str path, Arg.str msg],
          Event.call (Call.tempered_close device)]
      ∨ (print_device b options dev s).out =
        [Event.call (Call.tempered_open dev (some device)),
          Event.call (Call.tempered_read_sensors device false),
          Event.call (Call.tempered_error device msg),
          Event.call (Call.tempered_get_device_path device path),
          Event.stderr "%s: Failed to read the sensors: %s\n" [Arg.str path, Arg.str msg],
          Event.call (Call.tempered_close device)] := by
  cases horder : b.error_before_path with
  | false =>
    refine ⟨(b.tempered_get_device_path s2 device).1,
      (b.tempered_error (b.tempered_get_device_path s2 device).2 device).1, Or.inl ?_⟩
    rw [print_device_read_failed b options dev s s1 s2 _ _ device _ _ h horder hopen hread
      rfl rfl]
  | true =>
    refine ⟨(b.tempered_get_device_path (b.tempered_error s2 device).2 device).1,
      (b.tempered_error s2 device).1, Or.inr ?_⟩
    rw [print_device_read_failed_error_first b options dev s s1 s2 _ _ device _ _ h horder
      hopen hread rfl rfl]

theorem print_device_read_ok (b : Backend σ H V) (options : my_options V)
    (dev : tempered_device_list) (s s1 s2 s3 : σ) (device : H) (sensors : Int)
    (h : options.enumerate = false)
    (hopen : b.tempered_open s dev = (Except.ok device, s1))
    (hread : b.tempered_read_sensors s1 device = (true, s2))
    (hcount : b.tempered_get_sensor_count s2 device = (sensors, s3)) :
    print_device b options dev s =
      ⟨(), b.tempered_close
          (print_device_loop b options device sensors sensors.toNat 0 s3).st device,
        [Event.call (Call.tempered_open dev (some device)),
          Event.call (Call.tempered_read_sensors device true),
          Event.call (Call.tempered_get_sensor_count device sensors)]
        ++ (print_device_loop b options device sensors sensors.toNat 0 s3).out
        ++ [Event.call (Call.tempered_close device)]⟩ := by
  simp [print_device, h, tempered_open, hopen, tempered_read_sensors, hread,
    tempered_get_sensor_count, hcount, tempered_close, Except.toOption]

theorem print_device_events (b : Backend σ H V) (options : my_options V)
    (dev : tempered_device_list) (s : σ) :
    ∀ e ∈ (print_device b options dev s).out, device_event e = true := by
  cases hmode : options.enumerate with
  | true =>
    rw [print_device_enumerate b options dev s hmode]
    simp [enumerate_line, device_event]
  | false =>
    rcases hopen : b.tempered_open s dev with ⟨r, s1⟩
    cases r with
    | error err =>
      rw [print_device_open_failed b options dev s s1 err hmode hopen]
      simp [device_event]
    | ok device =>
      rcases hread : b.tempered_read_sensors s1 device with ⟨ok, s2⟩
      cases ok with
      | false =>
        obtain ⟨path, msg, hout | hout⟩ :=
          print_device_read_failed_any_order b options dev s s1 s2 device hmode hopen hread
        · rw [hout]
          simp [device_event, sensor_event]
        · rw [hout]
          simp [device_event, sensor_event]
      | true =>
        rw [print_device_read_ok b options dev s s1 s2 _ device _ hmode hopen hread rfl]
        intro e he
        simp only [List.mem_append, List.mem_cons, List.mem_singleton, List.not_mem_nil,
          or_false] at he
        rcases he with ((he | he | he) | he) | he
        · simp [he, device_event]
        · simp [he, device_event]
        · simp [he, device_event]
        · exact sensor_event_device_event e (print_device_loop_events b options device _ _ e he)
        · simp [he, device_event]

end Device

/-! ## Calibration and the combined line -/

section Calibration

variable {σ H V : Type} [Inhabited V]

/-- At line 146 a flag that is still set was set by the library and its fetch
succeeded: the local holds the fetched value, calibrated when a table is configured.
The events before the line are no lines on standard output, and every call of the
calibration function has the table, the count and the fetched value of its quantity. -/
theorem print_device_sensor_fetch_sound (b : Backend σ H V) (options : my_options V)
    (device : H) (sensor : Int) (s : σ) :
    ((print_device_sensor_fetch b options device sensor s).val.2.type
        &&& b.TEMPERED_SENSOR_TYPE_TEMPERATURE ≠ 0 →
      ∃ v, Event.call (Call.tempered_get_temperature device sensor (some v))
          ∈ (print_device_sensor_fetch b options device sensor s).out
        ∧ (print_device_sensor_fetch b options device sensor s).val.2.tempC
          = apply_calibration b options.calibtemp_count options.calibtemp_values v)
    ∧ ((print_device_sensor_fetch b options device sensor s).val.2.type
        &&& b.TEMPERED_SENSOR_TYPE_HUMIDITY ≠ 0 →
      ∃ v, Event.call (Call.tempered_get_humidity device sensor (some v))
          ∈ (print_device_sensor_fetch b options device sensor s).out
        ∧ (print_device_sensor_fetch b options device sensor s).val.2.rel_hum
          = apply_calibration b options.calibrelh_count options.calibrelh_values v)
    ∧ (∀ e ∈ (print_device_sensor_fetch b options device sensor s).out,
        is_stdout e = false)
    ∧ (∀ (x : V) (c : Int) (values : List V) (r : V),
        Event.call (Call.tempered_util__calibrate_value x c values r)
          ∈ (print_device_sensor_fetch b options device sensor s).out →
        (options.calibtemp_values = some values ∧ c = options.calibtemp_count
          ∧ Event.call (Call.tempered_get_temperature device sensor (some x))
            ∈ (print_device_sensor_fetch b options device sensor s).out)
        ∨ (options.calibrelh_values = some values ∧ c = options.calibrelh_count
          ∧ Event.call (Call.tempered_get_humidity device sensor (some x))
            ∈ (print_device_sensor_fetch b options device sensor s).out))
    ∧ List.countP is_calibrate (print_device_sensor_fetch b options device sensor s).out
        ≤ (if options.calibtemp_values.isSome then 1 else 0)
          + (if options.calibrelh_values.isSome then 1 else 0) := by
  simp only [print_device_sensor_fetch, run_bind, run_pure, List.append_nil]
  generalize (tempered_get_sensor_type b device sensor s).st = s1
  generalize (tempered_get_sensor_type b device sensor s).val = type
  have htype : (tempered_get_sensor_type b device sensor s).out
      = [Event.call (Call.tempered_get_sensor_type device sensor
          (b.tempered_get_sensor_type s device sensor).1)] := rfl
  have hpath : (tempered_get_device_path b device s1).out
      = [Event.call (Call.tempered_get_device_path device
          (b.tempered_get_device_path s1 device).1)] := rfl
  rw [htype, hpath]
  generalize (tempered_get_device_path b device s1).val = path
  generalize (tempered_get_device_path b device s1).st = s2
  have hclearT := and_int_not_self type b.TEMPERED_SENSOR_TYPE_TEMPERATURE
  rcases temperature_cases b options device sensor path ⟨type, default, default⟩ s2 with
    ⟨ht0, ht⟩ | ⟨msg, htv, hto⟩ | ⟨v, htv, hto⟩
  · rw [ht]
    rcases humidity_cases b options device sensor path ⟨type, default, default⟩ s2 with
      ⟨hh0, hh⟩ | ⟨msg', hhv, hho⟩ | ⟨w, hhv, hho⟩
    · rw [hh]
      simp_all [is_stdout, is_calibrate, List.countP_cons]
    · rw [hhv, hho]
      have h1 := and_int_not_self type b.TEMPERED_SENSOR_TYPE_HUMIDITY
      have h2 := and_ne_zero_of_and_and type (int_not b.TEMPERED_SENSOR_TYPE_HUMIDITY)
        b.TEMPERED_SENSOR_TYPE_TEMPERATURE
      simp_all [is_stdout, is_calibrate, List.countP_cons]
    · rw [hhv, hho]
      cases hc : options.calibrelh_values <;>
        simp_all [is_stdout, calibration_calls, apply_calibration, is_calibrate, List.countP_cons]
  · rw [htv, hto]
    generalize (print_device_sensor_temperature b options device sensor path
      ⟨type, default, default⟩ s2).st = s3
    have h3 := and_ne_zero_of_and_and (type &&& int_not b.TEMPERED_SENSOR_TYPE_TEMPERATURE)
      (int_not b.TEMPERED_SENSOR_TYPE_HUMIDITY) b.TEMPERED_SENSOR_TYPE_TEMPERATURE
    rcases humidity_cases b options device sensor path
      ⟨type &&& int_not b.TEMPERED_SENSOR_TYPE_TEMPERATURE, default, default⟩ s3 with
      ⟨hh0, hh⟩ | ⟨msg', hhv, hho⟩ | ⟨w, hhv, hho⟩
    · rw [hh]
      simp_all [is_stdout, is_calibrate, List.countP_cons]
    · rw [hhv, hho]
      have h1 := and_int_not_self (type &&& int_not b.TEMPERED_SENSOR_TYPE_TEMPERATURE)
        b.TEMPERED_SENSOR_TYPE_HUMIDITY
      simp_all [is_stdout, is_calibrate, List.countP_cons]
    · rw [hhv, hho]
      cases hc : options.calibrelh_values <;>
        simp_all [is_stdout, calibration_calls, apply_calibration, is_calibrate, List.countP_cons]
  · rw [htv, hto]
    generalize (print_device_sensor_temperature b options device sensor path
      ⟨type, default, default⟩ s2).st = s3
    rcases humidity_cases b options device sensor path
      ⟨type, apply_calibration b options.calibtemp_count options.calibtemp_values v,
        default⟩ s3 with
      ⟨hh0, hh⟩ | ⟨msg', hhv, hho⟩ | ⟨w, hhv, hho⟩
    · rw [hh]
      cases hc : options.calibtemp_values <;>
        simp_all [is_stdout, calibration_calls, apply_calibration, is_calibrate, List.countP_cons]
    · rw [hhv, hho]
      have h1 := and_int_not_self type b.TEMPERED_SENSOR_TYPE_HUMIDITY
      cases hc : options.calibtemp_values <;>
        simp_all [is_stdout, calibration_calls, apply_calibration, is_calibrate, List.countP_cons]
    · rw [hhv, hho]
      cases hc : options.calibtemp_values <;> cases hc' : options.calibrelh_values <;>
        simp_all [is_stdout, calibration_calls, apply_calibration, is_calibrate, List.countP_cons]
      rintro x c values r (⟨rfl, rfl, rfl, rfl⟩ | ⟨rfl, rfl, rfl, rfl⟩)
      · exact Or.inl ⟨rfl, rfl, rfl⟩
      · exact Or.inr ⟨rfl, rfl, rfl⟩

omit [Inhabited V] in
theorem reported_is_stdout (e : Event H V) :
    (∀ v, reported_temperature e = some v → is_stdout e = true)
    ∧ (∀ v, reported_humidity e = some v → is_stdout e = true) := by
  cases e with
  | stdout fmt args => simp [is_stdout]
  | stderr fmt args => simp [reported_temperature, reported_humidity]
  | call c => simp [reported_temperature, reported_humidity]

theorem print_device_sensor_out (b : Backend σ H V) (options : my_options V) (device : H)
    (sensor : Int) (s : σ) :
    (print_device_sensor b options device sensor s).out
      = (print_device_sensor_fetch b options device sensor s).out
        ++ (print_device_sensor_output b options sensor
            (print_device_sensor_fetch b options device sensor s).val.1
            (print_device_sensor_fetch b options device sensor s).val.2
            (print_device_sensor_fetch b options device sensor s).st).out := by
  simp only [print_device_sensor, print_device_sensor_fetch, run_bind, run_pure,
    List.append_assoc, List.append_nil]

/-- A fetch that failed has cleared its flag at line 146. -/
theorem print_device_sensor_fetch_failed (b : Backend σ H V) (options : my_options V)
    (device : H) (sensor : Int) (s : σ) :
    (Event.call (Call.tempered_get_temperature device sensor none)
        ∈ (print_device_sensor_fetch b options device sensor s).out →
      (print_device_sensor_fetch b options device sensor s).val.2.type
        &&& b.TEMPERED_SENSOR_TYPE_TEMPERATURE = 0)
    ∧ (Event.call (Call.tempered_get_humidity device sensor none)
        ∈ (print_device_sensor_fetch b options device sensor s).out →
      (print_device_sensor_fetch b options device sensor s).val.2.type
        &&& b.TEMPERED_SENSOR_TYPE_HUMIDITY = 0) := by
  simp only [print_device_sensor_fetch, run_bind, run_pure, List.append_nil]
  generalize (tempered_get_sensor_type b device sensor s).st = s1
  generalize (tempered_get_sensor_type b device sensor s).val = type
  have htype : (tempered_get_sensor_type b device sensor s).out
      = [Event.call (Call.tempered_get_sensor_type device sensor
          (b.tempered_get_sensor_type s device sensor).1)] := rfl
  have hpath : (tempered_get_device_path b device s1).out
      = [Event.call (Call.tempered_get_device_path device
          (b.tempered_get_device_path s1 device).1)] := rfl
  rw [htype, hpath]
  generalize (tempered_get_device_path b device s1).val = path
  generalize (tempered_get_device_path b device s1).st = s2
  have hclearT := and_int_not_self type b.TEMPERED_SENSOR_TYPE_TEMPERATURE
  rcases temperature_cases b options device sensor path ⟨type, default, default⟩ s2 with
    ⟨ht0, ht⟩ | ⟨msg, htv, hto⟩ | ⟨v, htv, hto⟩
  · rw [ht]
    rcases humidity_cases b options device sensor path ⟨type, default, default⟩ s2 with
      ⟨hh0, hh⟩ | ⟨msg', hhv, hho⟩ | ⟨w, hhv, hho⟩
    · rw [hh]
      simp_all
    · rw [hhv, hho]
      have h1 := and_int_not_self type b.TEMPERED_SENSOR_TYPE_HUMIDITY
      simp_all
    · rw [hhv, hho]
      cases hc : options.calibrelh_values <;> simp_all [calibration_calls]
  · rw [htv, hto]
    generalize (print_device_sensor_temperature b options device sensor path
      ⟨type, default, default⟩ s2).st = s3
    have h3 := and_ne_zero_of_and_and (type &&& int_not b.TEMPERED_SENSOR_TYPE_TEMPERATURE)
      (int_not b.TEMPERED_SENSOR_TYPE_HUMIDITY) b.TEMPERED_SENSOR_TYPE_TEMPERATURE
    rcases humidity_cases b options device sensor path
      ⟨type &&& int_not b.TEMPERED_SENSOR_TYPE_TEMPERATURE, default, default⟩ s3 with
      ⟨hh0, hh⟩ | ⟨msg', hhv, hho⟩ | ⟨w, hhv, hho⟩
    · rw [hh]
      simp_all
    · rw [hhv, hho]
      have h1 := and_int_not_self (type &&& int_not b.TEMPERED_SENSOR_TYPE_TEMPERATURE)
        b.TEMPERED_SENSOR_TYPE_HUMIDITY
      simp_all
    · rw [hhv, hho]
      cases hc : options.calibrelh_values <;> simp_all [calibration_calls]
  · rw [htv, hto]
    generalize (print_device_sensor_temperature b options device sensor path
      ⟨type, default, default⟩ s2).st = s3
    rcases humidity_cases b options device sensor path
      ⟨type, apply_calibration b options.calibtemp_count options.calibtemp_values v,
        default⟩ s3 with
      ⟨hh0, hh⟩ | ⟨msg', hhv, hho⟩ | ⟨w, hhv, hho⟩
    · rw [hh]
      cases hc : options.calibtemp_values <;> simp_all [calibration_calls]
    · rw [hhv, hho]
      have h1 := and_int_not_self type b.TEMPERED_SENSOR_TYPE_HUMIDITY
      cases hc : options.calibtemp_values <;> simp_all [calibration_calls]
    · rw [hhv, hho]
      cases hc : options.calibtemp_values <;> cases hc' : options.calibrelh_values <;>
        simp_all [calibration_calls]

/-- A temperature that was fetched is in the local `tempC` at line 146, calibrated when
a table is configured, and its flag is still set. -/
theorem fetch_temperature_value (b : Backend σ H V) (options : my_options V) (device : H)
    (sensor : Int) (s s1 s2 s3 : σ) (type : Nat) (path : String) (v : V)
    (hflags : flags_independent b)
    (htype : b.tempered_get_sensor_type s device sensor = (type, s1))
    (hT : type &&& b.TEMPERED_SENSOR_TYPE_TEMPERATURE ≠ 0)
    (hpath : b.tempered_get_device_path s1 device = (path, s2))
    (htemp : b.tempered_get_temperature s2 device sensor = (some v, s3)) :
    (print_device_sensor_fetch b options device sensor s).val.1 = path
    ∧ (print_device_sensor_fetch b options device sensor s).val.2.tempC
      = apply_calibration b options.calibtemp_count options.calibtemp_values v
    ∧ (print_device_sensor_fetch b options device sensor s).val.2.type
        &&& b.TEMPERED_SENSOR_TYPE_TEMPERATURE ≠ 0 := by
  obtain ⟨hT32, hH32, hTH⟩ := hflags
  have hHT : b.TEMPERED_SENSOR_TYPE_HUMIDITY &&& b.TEMPERED_SENSOR_TYPE_TEMPERATURE = 0 := by
    rw [Nat.land_comm]
    exact hTH
  have hkeep := and_int_not_of_disjoint type _ _ hH32 hT32 hHT
  have hblock := temperature_block_ok b options device sensor path ⟨type, default, default⟩
    s2 s3 v hT htemp
  simp only [print_device_sensor_fetch, run_bind, run_pure, tempered_get_sensor_type, htype,
    tempered_get_device_path, hpath, hblock]
  rcases humidity_cases b options device sensor path
    ⟨type, apply_calibration b options.calibtemp_count options.calibtemp_values v, default⟩
    s3 with ⟨_, hh⟩ | ⟨msg, hhv, _⟩ | ⟨w, hhv, _⟩
  · rw [hh]
    exact ⟨trivial, rfl, hT⟩
  · rw [hhv]
    refine ⟨trivial, rfl, ?_⟩
    show type &&& int_not b.TEMPERED_SENSOR_TYPE_HUMIDITY
      &&& b.TEMPERED_SENSOR_TYPE_TEMPERATURE ≠ 0
    rw [hkeep]
    exact hT
  · rw [hhv]
    exact ⟨trivial, rfl, hT⟩

/-- A humidity that was fetched is in the local `rel_hum` at line 146, calibrated when a
table is configured, and its flag is still set. -/
theorem fetch_humidity_value (b : Backend σ H V) (options : my_options V) (device : H)
    (sensor : Int) (s s1 s2 s4 : σ) (type : Nat) (path : String) (v : V)
    (hflags : flags_independent b)
    (htype : b.tempered_get_sensor_type s device sensor = (type, s1))
    (hH : type &&& b.TEMPERED_SENSOR_TYPE_HUMIDITY ≠ 0)
    (hpath : b.tempered_get_device_path s1 device = (path, s2))
    (hhum : b.tempered_get_humidity
      (print_device_sensor_temperature b options device sensor path
        ⟨type, default, default⟩ s2).st device sensor = (some v, s4)) :
    (print_device_sensor_fetch b options device sensor s).val.1 = path
    ∧ (print_device_sensor_fetch b options device sensor s).val.2.rel_hum
      = apply_calibration b options.calibrelh_count options.calibrelh_values v
    ∧ (print_device_sensor_fetch b options device sensor s).val.2.type
        &&& b.TEMPERED_SENSOR_TYPE_HUMIDITY ≠ 0 := by
  obtain ⟨hT32, hH32, hTH⟩ := hflags
  have hkeep := and_int_not_of_disjoint type _ _ hT32 hH32 hTH
  simp only [print_device_sensor_fetch, run_bind, run_pure, tempered_get_sensor_type, htype,
    tempered_get_device_path, hpath]
  have hflag : (print_device_sensor_temperature b options device sensor path
      ⟨type, default, default⟩ s2).val.type &&& b.TEMPERED_SENSOR_TYPE_HUMIDITY ≠ 0 := by
    rcases temperature_cases b options device sensor path ⟨type, default, default⟩ s2 with
      ⟨_, ht⟩ | ⟨msg, htv, _⟩ | ⟨w, htv, _⟩
    · rw [ht]
      exact hH
    · rw [htv]
      show type &&& int_not b.TEMPERED_SENSOR_TYPE_TEMPERATURE
        &&& b.TEMPERED_SENSOR_TYPE_HUMIDITY ≠ 0
      rw [hkeep]
      exact hH
    · rw [htv]
      exact hH
  rw [humidity_block_ok b options device sensor path _ _ s4 v hflag hhum]
  exact ⟨trivial, rfl, hflag⟩

/-- The lines `print_device_sensor` writes on standard output: the one line of the
specification for the locals that the fetches leave. -/
theorem print_device_sensor_stdout (b : Backend σ H V) (options : my_options V) (device : H)
    (sensor : Int) (s : σ) :
    List.filter is_stdout (print_device_sensor b options device sensor s).out
      = [sensor_line b options sensor
          (print_device_sensor_fetch b options device sensor s).val.1
          (print_device_sensor_fetch b options device sensor s).val.2] := by
  have hfetch : List.filter is_stdout (print_device_sensor_fetch b options device sensor s).out
      = [] := by
    rw [List.filter_eq_nil_iff]
    intro e he
    simp [(print_device_sensor_fetch_sound b options device sensor s).2.2.1 e he]
  rw [print_device_sensor_out, List.filter_append, hfetch, output_stdout]
  rfl

end Calibration

/-! ## The device loops of `main` -/

section Selection

variable {σ H V : Type} [Inhabited V]

theorem main_find_eq (b : Backend σ H V) (options : my_options V) (path : String)
    (list : List tempered_device_list) (s : σ) :
    main_find b options path list s =
      match list.find? (fun dev => decide (dev.path = path)) with
      | some dev => ⟨true, (print_device b options dev s).st, (print_device b options dev s).out⟩
      | none => ⟨false, s, []⟩ := by
  induction list with
  | nil => simp [main_find]
  | cons dev next ih =>
    by_cases hp : dev.path = path
    · simp [main_find, hp, List.find?_cons]
    · simp [main_find, hp, List.find?_cons, ih]

theorem main_requested_eq (b : Backend σ H V) (options : my_options V)
    (list : List tempered_device_list) (requested : List String) :
    main_requested b options list requested
      = seq_all ((select list (some requested)).map (report b options)) := by
  induction requested with
  | nil => simp [main_requested, select, seq_all]
  | cons path rest ih =>
    funext s
    simp only [select, List.map_cons, List.map_map] at ih ⊢
    simp only [main_requested, ih, seq_all_cons, run_bind, main_find_eq]
    cases hfind : list.find? (fun dev => decide (dev.path = path)) with
    | none => simp [report, eprintf]
    | some dev => simp [report]

theorem main_all_eq (b : Backend σ H V) (options : my_options V)
    (list : List tempered_device_list) :
    main_all b options list = seq_all (list.map (print_device b options)) := by
  induction list with
  | nil => simp [main_all, seq_all]
  | cons dev next ih => simp [main_all, ih, seq_all]

theorem main_devices_eq (b : Backend σ H V) (options : my_options V)
    (list : List tempered_device_list) :
    main_devices b options list
      = seq_all ((select list options.devices).map (report b options)) := by
  unfold main_devices
  cases hd : options.devices with
  | none =>
    simp only [main_all_eq, select, List.map_map]
    rfl
  | some requested => simp only [main_requested_eq]

theorem main_devices_events (b : Backend σ H V) (options : my_options V)
    (list : List tempered_device_list) (s : σ) :
    ∀ e ∈ (main_devices b options list s).out,
      device_event e = true ∨ ∃ path, e = not_found_line path := by
  rw [main_devices_eq]
  apply seq_all_forall
  intro m hm t e he
  obtain ⟨⟨path, found⟩, _, rfl⟩ := List.mem_map.mp hm
  cases found with
  | none =>
    right
    simp only [report, eprintf, List.mem_singleton] at he
    exact ⟨path, he⟩
  | some dev =>
    left
    exact print_device_events b options dev t e he

omit [Inhabited V] in
theorem device_event_not_special (e : Event H V) (h : device_event e = true) :
    is_not_found e = false ∧ is_lifecycle e = false := by
  cases e with
  | stdout fmt args => simp [is_not_found, is_lifecycle]
  | stderr fmt args =>
    simp only [device_event, sensor_event, Bool.or_eq_true, decide_eq_true_eq] at h
    rcases h with (h | h) | (h | h) <;> subst h <;> simp [is_not_found, is_lifecycle]
  | call c => cases c <;> simp_all [is_not_found, is_lifecycle, device_event, sensor_event]

end Selection

/-! ## Enumerate mode, option parsing and the exit code -/

section Main

variable {σ H V : Type} [Inhabited V]

theorem seq_all_enumerate (b : Backend σ H V) (options : my_options V)
    (henum : options.enumerate = true)
    (l : List (String × Option tempered_device_list)) (s : σ) :
    seq_all (l.map (report b options)) s = ⟨(), s, l.map enumerate_report⟩ := by
  induction l with
  | nil => simp
  | cons r rest ih =>
    rcases r with ⟨path, _ | dev⟩
    · simp [report, eprintf, ih, enumerate_report, not_found_line]
    · simp [report, print_device_enumerate b options dev s henum, ih, enumerate_report]

omit [Inhabited V] in
theorem parse_options_loop_events (results : List (Int × String)) (l : parse_locals) (s : σ) :
    (parse_options_loop results l s : Res σ H V _).st = s
    ∧ ∀ e ∈ (parse_options_loop results l s : Res σ H V _).out, is_call e = false := by
  induction results generalizing l with
  | nil => simp [parse_options_loop]
  | cons r rest ih =>
    rcases r with ⟨opt, optarg⟩
    unfold parse_options_loop
    split_ifs <;> first
      | exact ih _
      | simp [show_help, printf, eprintf, is_call]

omit [Inhabited V] in
theorem parse_options_calibration_events (b : Backend σ H V) (str : Option String) (s : σ) :
    (parse_options_calibration b str s).st = s
    ∧ ∀ e ∈ (parse_options_calibration b str s).out, is_lifecycle e = false := by
  cases str with
  | none => simp [parse_options_calibration]
  | some str =>
    simp only [parse_options_calibration, run_bind]
    cases h : b.tempered_util__parse_calibration_string str <;>
      simp [tempered_util__parse_calibration_string, h, is_lifecycle]

omit [Inhabited V] in
theorem is_lifecycle_of_not_call (e : Event H V) (h : is_call e = false) :
    is_lifecycle e = false := by
  cases e with
  | stdout fmt args => rfl
  | stderr fmt args => rfl
  | call c => simp [is_call] at h

omit [Inhabited V] in
theorem parse_options_events (b : Backend σ H V) (g : getopt_run) (s : σ) :
    (parse_options b g s).st = s
    ∧ ∀ e ∈ (parse_options b g s).out, is_lifecycle e = false := by
  have h1 := parse_options_loop_events (H := H) (V := V) g.results ⟨false, false, none, none⟩ s
  simp only [parse_options, run_bind]
  generalize (parse_options_loop g.results ⟨false, false, none, none⟩ s : Res σ H V _) = r1
    at h1 ⊢
  rcases r1 with ⟨_ | l, s1, out1⟩
  · simp only [run_pure, List.append_nil]
    exact ⟨h1.1, fun e he => is_lifecycle_of_not_call e (h1.2 e he)⟩
  · simp only [run_bind]
    have h2 := parse_options_calibration_events b l.calibtemp_string s1
    generalize parse_options_calibration b l.calibtemp_string s1 = r2 at h2 ⊢
    rcases r2 with ⟨_ | ⟨c2, v2⟩, s2, out2⟩
    · simp only [run_pure, List.append_nil, List.mem_append]
      refine ⟨h2.1.trans h1.1, ?_⟩
      rintro e (he | he)
      · exact is_lifecycle_of_not_call e (h1.2 e he)
      · exact h2.2 e he
    · simp only [run_bind]
      have h3 := parse_options_calibration_events b l.calibrelh_string s2
      generalize parse_options_calibration b l.calibrelh_string s2 = r3 at h3 ⊢
      rcases r3 with ⟨_ | ⟨c3, v3⟩, s3, out3⟩ <;>
      · simp only [run_pure, List.append_nil, List.mem_append]
        refine ⟨h3.1.trans (h2.1.trans h1.1), ?_⟩
        rintro e (he | he | he)
        · exact is_lifecycle_of_not_call e (h1.2 e he)
        · exact h2.2 e he
        · exact h3.2 e he

omit [Inhabited V] in
theorem not_found_line_not_lifecycle (path : String) :
    is_lifecycle (not_found_line path : Event H V) = false := rfl

/-- Lines 207-239 of `main` make no `tempered_init` and no `tempered_exit` call. -/
theorem main_devices_no_lifecycle (b : Backend σ H V) (options : my_options V)
    (list : List tempered_device_list) (s : σ) :
    ∀ e ∈ (main_devices b options list s).out, is_lifecycle e = false := by
  intro e he
  rcases main_devices_events b options list s e he with h | ⟨path, rfl⟩
  · exact (device_event_not_special e h).2
  · rfl

/-- After a successful `tempered_init`, `main` is its enumeration block followed by its
shutdown block. -/
theorem main_init_ok (b : Backend σ H V) (g : getopt_run) (s s1 s2 : σ)
    (options : my_options V) (hparse : (parse_options b g s).val = some options)
    (hs1 : (parse_options b g s).st = s1) (hinit : b.tempered_init s1 = (none, s2)) :
    main b g s =
      ⟨(main_exit b (main_enumerate b options s2).st).val,
        (main_exit b (main_enumerate b options s2).st).st,
        (parse_options b g s).out ++ Event.call (Call.tempered_init true)
          :: ((main_enumerate b options s2).out
            ++ (main_exit b (main_enumerate b options s2).st).out)⟩ := by
  have hval : (tempered_init b s1).val = none := by simp [tempered_init, hinit]
  have hst : (tempered_init b s1).st = s2 := by simp [tempered_init, hinit]
  have hout : (tempered_init b s1).out = [Event.call (Call.tempered_init true)] := by
    simp [tempered_init, hinit]
  simp only [main, run_bind, hparse, hs1, hval, hst, hout, main_enumerate, main_exit]
  by_cases hempty : (tempered_enumerate b s2).val.1.isEmpty = true
  · simp only [hempty, if_true, run_bind, List.append_assoc, List.singleton_append]
  · simp only [hempty, if_false, run_bind, List.append_assoc, List.singleton_append]
    simp

theorem main_enumerate_no_lifecycle_failure (b : Backend σ H V) (options : my_options V)
    (s : σ) (ok : Bool) :
    Event.call (Call.tempered_init ok) ∉ (main_enumerate b options s).out
    ∧ Event.call (Call.tempered_exit ok) ∉ (main_enumerate b options s).out := by
  rcases henum : b.tempered_enumerate s with ⟨⟨list, err⟩, s'⟩
  have hdev := main_devices_no_lifecycle b options list s'
  cases list with
  | nil => simp [main_enumerate, tempered_enumerate, henum, eprintf]
  | cons dev next =>
    simp only [main_enumerate, run_bind, tempered_enumerate, henum, List.isEmpty_cons,
      Bool.false_eq_true, if_false, tempered_free_device_list, List.mem_append, List.mem_cons,
      List.mem_singleton, List.not_mem_nil, or_false, false_or]
    constructor
    · rintro (hmem | hmem | hmem)
      · exact Event.noConfusion hmem (fun h => Call.noConfusion h)
      · have := hdev _ hmem
        simp [is_lifecycle] at this
      · exact Event.noConfusion hmem (fun h => Call.noConfusion h)
    · rintro (hmem | hmem | hmem)
      · exact Event.noConfusion hmem (fun h => Call.noConfusion h)
      · have := hdev _ hmem
        simp [is_lifecycle] at this
      · exact Event.noConfusion hmem (fun h => Call.noConfusion h)

omit [Inhabited V] in
theorem parse_options_loop_some (results : List (Int × String)) (l : parse_locals) (s : σ) :
    ∀ l' : parse_locals, (parse_options_loop results l s : Res σ H V _).val = some l' →
      (parse_options_loop results l s : Res σ H V _).out = [] := by
  induction results generalizing l with
  | nil => simp [parse_options_loop]
  | cons r rest ih =>
    rcases r with ⟨opt, optarg⟩
    intro l' h
    unfold parse_options_loop at h ⊢
    split_ifs at h ⊢ <;> first
      | exact ih _ l' h
      | simp

omit [Inhabited V] in
/-- A `parse_options` that returns options has printed nothing. -/
theorem parse_options_quiet (b : Backend σ H V) (g : getopt_run) (s : σ)
    (options : my_options V) (h : (parse_options b g s).val = some options) :
    ∀ e ∈ (parse_options b g s).out, is_stdout e = false ∧ is_stderr e = false := by
  simp only [parse_options, run_bind] at h ⊢
  have h1 := parse_options_loop_some (H := H) (V := V) g.results ⟨false, false, none, none⟩ s
  generalize (parse_options_loop g.results ⟨false, false, none, none⟩ s : Res σ H V _) = r1
    at h h1 ⊢
  rcases r1 with ⟨_ | l, s1, out1⟩
  · simp at h
  · have hout1 : out1 = [] := h1 l rfl
    subst hout1
    simp only [run_bind] at h ⊢
    have h2 : ∀ (str : Option String) (t : σ),
        ∀ e ∈ (parse_options_calibration b str t).out,
          is_stdout e = false ∧ is_stderr e = false := by
      intro str t
      cases str with
      | none => simp [parse_options_calibration]
      | some str =>
        simp only [parse_options_calibration, run_bind]
        cases hx : b.tempered_util__parse_calibration_string str <;>
          simp [tempered_util__parse_calibration_string, hx, is_stdout, is_stderr]
    have h2a := h2 l.calibtemp_string s1
    generalize parse_options_calibration b l.calibtemp_string s1 = r2 at h h2a ⊢
    rcases r2 with ⟨_ | ⟨c2, v2⟩, s2, out2⟩
    · simp at h
    · simp only [run_bind] at h ⊢
      have h2b := h2 l.calibrelh_string s2
      generalize parse_options_calibration b l.calibrelh_string s2 = r3 at h h2b ⊢
      rcases r3 with ⟨_ | ⟨c3, v3⟩, s3, out3⟩
      · simp at h
      · simp only [run_pure, List.append_nil, List.nil_append, List.mem_append]
        rintro e (he | he)
        · exact h2a e he
        · exact h2b e he

/-- A run of `main` in which `parse_options`, `tempered_init` and `tempered_enumerate`
succeed: the events of option parsing, the two calls, the device loops of lines 213-237,
`tempered_free_device_list`, and the shutdown block. -/
theorem main_run (b : Backend σ H V) (g : getopt_run) (s s2 s3 : σ)
    (options : my_options V) (list : List tempered_device_list) (err : String)
    (hparse : (parse_options b g s).val = some options)
    (hinit : b.tempered_init (parse_options b g s).st = (none, s2))
    (henum : b.tempered_enumerate s2 = ((list, err), s3)) (hlist : list ≠ []) :
    (main b g s).out =
      (parse_options b g s).out
        ++ [Event.call (Call.tempered_init true), Event.call (Call.tempered_enumerate list)]
        ++ (main_devices b options list s3).out
        ++ Event.call (Call.tempered_free_device_list list)
          :: (main_exit b
              (b.tempered_free_device_list (main_devices b options list s3).st list)).out := by
  rw [main_init_ok b g s _ s2 options hparse rfl hinit]
  cases list with
  | nil => exact absurd rfl hlist
  | cons dev next =>
    simp [main_enumerate, tempered_enumerate, henum, tempered_free_device_list]

omit [Inhabited V] in
theorem main_exit_no_stdout (b : Backend σ H V) (s : σ) :
    List.countP is_stdout (main_exit b s).out = 0 := by
  simp only [main_exit, run_bind]
  rcases hexit : b.tempered_exit s with ⟨_ | err, s'⟩ <;>
    simp [tempered_exit, hexit, eprintf, is_stdout, List.countP_cons]

omit [Inhabited V] in
theorem parse_options_loop_help (pre post : List (Int × String)) (arg : String)
    (l : parse_locals) (s : σ)
    (hpre : ∀ r ∈ pre, r.1 = opt_char 'e' ∨ r.1 = opt_char 'b' ∨ r.1 = opt_char 'c'
      ∨ r.1 = opt_char 'r') :
    (parse_options_loop (pre ++ (opt_char 'h', arg) :: post) l s : Res σ H V _)
      = ⟨none, s, [Event.stdout usage_text []]⟩ := by
  induction pre generalizing l with
  | nil => simp [parse_options_loop, opt_char, show_help, printf]
  | cons r rest ih =>
    rcases r with ⟨opt, optarg⟩
    have hrest : ∀ r ∈ rest, r.1 = opt_char 'e' ∨ r.1 = opt_char 'b' ∨ r.1 = opt_char 'c'
        ∨ r.1 = opt_char 'r' := fun r hr => hpre r (List.mem_cons_of_mem _ hr)
    have hopt := hpre (opt, optarg) (List.mem_cons_self _ _)
    simp only [opt_char] at hopt
    rcases hopt with h | h | h | h <;>
      · simp only [List.cons_append, parse_options_loop, h, opt_char]
        simp only [Char.reduceToNat, Nat.cast_ofNat]
        norm_num
        exact ih _ hrest

end Main

/-! ## The claims

Each claim is followed by a concrete run on `demo_backend`. -/

section Claims

variable {σ H V : Type} [Inhabited V]

/-- Claim C1.  When a list of device paths is requested (`options->devices` is not
`NULL`), lines 213-230 of `main` are the requested paths taken in the order given, each
path on its own: the first enumerated device whose path is equal is printed by
`print_device` (and no other device), and a path that no device has gives the one
warning `not found or ignored` on the error stream, after which the next path is
processed.  Nothing is deduplicated, the result is the sequence of the per-request
results.  Requesting `z`, `b`, `a` against the devices `a`, `b`, `c` selects nothing for
`z`, then `b`, then `a`, and the run is the warning for `z`, then `print_device` on `b`,
then `print_device` on `a`.  In a run of `main` in which option parsing, initialisation
and enumeration succeed, these events stand between the `tempered_enumerate` call and
the `tempered_free_device_list` call. -/
theorem main_requested_in_request_order (b : Backend σ H V) (options : my_options V)
    (list : List tempered_device_list) (requested : List String)
    (hreq : options.devices = some requested) :
    main_devices b options list
      = seq_all ((requested.map
          (fun path => (path, list.find? (fun dev => decide (dev.path = path))))).map
          (report b options))
    ∧ select list options.devices
      = requested.map (fun path => (path, list.find? (fun dev => decide (dev.path = path))))
    ∧ select [dev_a, dev_b, dev_c] (some ["z", "b", "a"])
      = [("z", none), ("b", some dev_b), ("a", some dev_a)]
    ∧ (∀ (path : String) (dev : tempered_device_list) (s : σ),
      report b options (path, some dev) s = print_device b options dev s
      ∧ report b options (path, none) s = ⟨(), s, [not_found_line path]⟩)
    ∧ (∀ s : σ,
      (seq_all (([("z", none), ("b", some dev_b), ("a", some dev_a)] :
          List (String × Option tempered_device_list)).map (report b options)) s).out
        = not_found_line "z" :: ((print_device b options dev_b s).out
          ++ (print_device b options dev_a (print_device b options dev_b s).st).out))
    ∧ ∀ (g : getopt_run) (s s2 s3 : σ) (err : String),
      (parse_options b g s).val = some options →
      b.tempered_init (parse_options b g s).st = (none, s2) →
      b.tempered_enumerate s2 = ((list, err), s3) → list ≠ [] →
      (main b g s).out =
        (parse_options b g s).out
          ++ [Event.call (Call.tempered_init true), Event.call (Call.tempered_enumerate list)]
          ++ (seq_all ((requested.map
                (fun path => (path, list.find? (fun dev => decide (dev.path = path))))).map
                (report b options)) s3).out
          ++ Event.call (Call.tempered_free_device_list list)
            :: (main_exit b (b.tempered_free_device_list
                (main_devices b options list s3).st list)).out := by
  have hdev : main_devices b options list
      = seq_all ((requested.map
          (fun path => (path, list.find? (fun dev => decide (dev.path = path))))).map
          (report b options)) := by
    rw [main_devices_eq, hreq]
    rfl
  refine ⟨hdev, ?_, ?_, fun path dev s => ⟨rfl, rfl⟩, ?_, ?_⟩
  rotate_left 3
  · intro g s s2 s3 err hparse hinit henum hlist
    rw [main_run b g s s2 s3 options list err hparse hinit henum hlist, hdev]
  · rw [hreq]
    rfl
  · simp [select, dev_a, dev_b, dev_c]
  · intro s
    simp [report, eprintf, not_found_line]

/-- Claim C1 on the request `z`, `b`, `a` against the devices `a`, `b`, `c`. -/
theorem main_requested_in_request_order_witness :
    demo_requested.devices = some ["z", "b", "a"]
    ∧ main_devices demo_backend demo_requested [dev_a, dev_b, dev_c]
      = seq_all ([("z", none), ("b", some dev_b), ("a", some dev_a)].map
          (report demo_backend demo_requested)) :=
  ⟨rfl, (main_requested_in_request_order demo_backend demo_requested [dev_a, dev_b, dev_c]
    ["z", "b", "a"] rfl).1⟩

/-- Claim C2.  When no device path is requested (`options->devices` is `NULL`), lines
231-237 of `main` run `print_device` once on every enumerated device, in enumeration
order, whatever the library answers for an earlier device, and no `not found` warning
is written.  `parse_options` leaves `devices` at `NULL` exactly when the command line
has no operand.  In a run of `main` in which option parsing, initialisation and
enumeration succeed, these events stand between the `tempered_enumerate` call and the
`tempered_free_device_list` call. -/
theorem main_all_devices_in_enumeration_order (b : Backend σ H V) (options : my_options V)
    (list : List tempered_device_list) (hnone : options.devices = none) :
    main_devices b options list = seq_all (list.map (print_device b options))
    ∧ (∀ s : σ, List.countP is_not_found (main_devices b options list s).out = 0)
    ∧ (∀ (g : getopt_run) (s : σ) (o : my_options V),
        (parse_options b g s).val = some o → (o.devices = none ↔ g.operands = []))
    ∧ ∀ (g : getopt_run) (s s2 s3 : σ) (err : String),
      (parse_options b g s).val = some options →
      b.tempered_init (parse_options b g s).st = (none, s2) →
      b.tempered_enumerate s2 = ((list, err), s3) → list ≠ [] →
      (main b g s).out =
        (parse_options b g s).out
          ++ [Event.call (Call.tempered_init true), Event.call (Call.tempered_enumerate list)]
          ++ (seq_all (list.map (print_device b options)) s3).out
          ++ Event.call (Call.tempered_free_device_list list)
            :: (main_exit b (b.tempered_free_device_list
                (main_devices b options list s3).st list)).out := by
  have hall : main_devices b options list = seq_all (list.map (print_device b options)) := by
    simp only [main_devices, hnone, main_all_eq]
  refine ⟨hall, ?_, ?_, ?_⟩
  rotate_left 2
  · intro g s s2 s3 err hparse hinit henum hlist
    rw [main_run b g s s2 s3 options list err hparse hinit henum hlist, hall]
  · intro s
    rw [List.countP_eq_zero, hall]
    apply seq_all_forall
    intro m hm t e he
    obtain ⟨dev, _, rfl⟩ := List.mem_map.mp hm
    simp [(device_event_not_special e (print_device_events b options dev t e he)).1]
  · intro g s o ho
    simp only [parse_options, run_bind] at ho
    generalize (parse_options_loop g.results ⟨false, false, none, none⟩ s : Res σ H V _) = r1
      at ho
    rcases r1 with ⟨_ | l, s1, out1⟩
    · simp at ho
    · simp only [run_bind] at ho
      generalize parse_options_calibration b l.calibtemp_string s1 = r2 at ho
      rcases r2 with ⟨_ | ⟨c2, v2⟩, s2, out2⟩
      · simp at ho
      · simp only [run_bind] at ho
        generalize parse_options_calibration b l.calibrelh_string s2 = r3 at ho
        rcases r3 with ⟨_ | ⟨c3, v3⟩, s3, out3⟩
        · simp at ho
        · simp only [run_pure, Option.some.injEq] at ho
          subst ho
          by_cases hop : g.operands = [] <;> simp [hop]

/-- Claim C2 on the devices `a`, `b`, `c` with no request. -/
theorem main_all_devices_in_enumeration_order_witness :
    demo_options.devices = none
    ∧ main_devices demo_backend demo_options [dev_a, dev_b, dev_c]
      = seq_all ([dev_a, dev_b, dev_c].map (print_device demo_backend demo_options)) :=
  ⟨rfl, (main_all_devices_in_enumeration_order demo_backend demo_options
    [dev_a, dev_b, dev_c] rfl).1⟩

/-- Claim C3.  A sensor whose type has both flags, whose temperature cannot be fetched
and whose humidity can: `print_device_sensor` writes one error line, clears the
TEMPERATURE flag, still fetches the humidity (and calibrates it when a humidity table
is configured), and writes the humidity-only line with the calibrated humidity as its
single line on standard output; the dew-point function is not called.  The two flag
constants of `tempered.h` are taken to be bit masks with no bit in common. -/
theorem print_device_sensor_temperature_failure (b : Backend σ H V) (options : my_options V)
    (device : H) (sensor : Int) (s s1 s2 s3 s4 s5 : σ) (type : Nat) (path msg : String)
    (rel_hum : V) (hflags : flags_independent b)
    (htype : b.tempered_get_sensor_type s device sensor = (type, s1))
    (hT : type &&& b.TEMPERED_SENSOR_TYPE_TEMPERATURE ≠ 0)
    (hH : type &&& b.TEMPERED_SENSOR_TYPE_HUMIDITY ≠ 0)
    (hpath : b.tempered_get_device_path s1 device = (path, s2))
    (htemp : b.tempered_get_temperature s2 device sensor = (none, s3))
    (herr : b.tempered_error s3 device = (msg, s4))
    (hhum : b.tempered_get_humidity s4 device sensor = (some rel_hum, s5)) :
    print_device_sensor b options device sensor s =
      ⟨(), s5,
        [Event.call (Call.tempered_get_sensor_type device sensor type),
          Event.call (Call.tempered_get_device_path device path),
          Event.call (Call.tempered_get_temperature device sensor none),
          Event.call (Call.tempered_error device msg),
          Event.stderr "%s %i: Failed to get the temperature: %s\n"
            [Arg.str path, Arg.int sensor, Arg.str msg],
          Event.call (Call.tempered_get_humidity device sensor (some rel_hum))]
        ++ calibration_calls b options.calibrelh_count options.calibrelh_values rel_hum
        ++ [Event.stdout "%s %i: relative humidity %.1f%%\n"
            [Arg.str path, Arg.int sensor,
              Arg.flt (apply_calibration b options.calibrelh_count options.calibrelh_values
                rel_hum)]]⟩
    ∧ (print_device_sensor_temperature b options device sensor path
          ⟨type, default, default⟩ s2).val.type &&& b.TEMPERED_SENSOR_TYPE_TEMPERATURE = 0
    ∧ List.countP is_stderr (print_device_sensor b options device sensor s).out = 1
    ∧ List.countP is_stdout (print_device_sensor b options device sensor s).out = 1
    ∧ List.countP is_dew_point (print_device_sensor b options device sensor s).out = 0 := by
  obtain ⟨hT32, hH32, hTH⟩ := hflags
  have hkeep := and_int_not_of_disjoint type _ _ hT32 hH32 hTH
  have hclear := and_int_not_self type b.TEMPERED_SENSOR_TYPE_TEMPERATURE
  cases hc : options.calibrelh_values <;>
    simp [print_device_sensor, print_device_sensor_temperature, print_device_sensor_humidity,
      print_device_sensor_output, tempered_get_sensor_type, tempered_get_device_path,
      tempered_get_temperature, tempered_get_humidity, tempered_error,
      tempered_util__calibrate_value, eprintf, printf, calibration_calls, apply_calibration,
      htype, hpath, htemp, herr, hhum, hT, hH, hkeep, hclear, hc, is_stderr, is_stdout,
      is_dew_point, List.countP_cons]

/-- Claim C3 on sensor 0 of device `a`, whose temperature cannot be fetched. -/
theorem print_device_sensor_temperature_failure_witness :
    print_device_sensor demo_backend demo_options "a" 0 (0 : Nat)
      = ⟨(), 5,
          [Event.call (Call.tempered_get_sensor_type "a" 0 3),
            Event.call (Call.tempered_get_device_path "a" "a"),
            Event.call (Call.tempered_get_temperature "a" 0 none),
            Event.call (Call.tempered_error "a" "io"),
            Event.stderr "%s %i: Failed to get the temperature: %s\n"
              [Arg.str "a", Arg.int 0, Arg.str "io"],
            Event.call (Call.tempered_get_humidity "a" 0 (some 40)),
            Event.stdout "%s %i: relative humidity %.1f%%\n"
              [Arg.str "a", Arg.int 0, Arg.flt 40]]⟩ :=
  (print_device_sensor_temperature_failure demo_backend demo_options "a" 0 0 1 2 3 4 5 3
    "a" "io" 40 ⟨by decide, by decide, by decide⟩ rfl (by decide) (by decide) rfl rfl rfl
    rfl).1

/-- Claim C4.  In enumerate mode `print_device` makes no library call and writes one
line on standard output (path, type name, vendor id, product id) and nothing on the
error stream, and leaves the library state as it was.  The device loops of `main` then
write one such line per selected device that was found (and the warning for each
requested path that was not), with no library call at all, and a whole run of `main` in
which option parsing, initialisation and enumeration succeed writes as many lines on
standard output as there are selected devices that were found. -/
theorem enumerate_mode_one_line_per_device (b : Backend σ H V) (options : my_options V)
    (henum : options.enumerate = true) :
    (∀ (dev : tempered_device_list) (s : σ),
      print_device b options dev s
        = ⟨(), s, [Event.stdout "%s : %s (USB IDs %04X:%04X)\n"
            [Arg.str dev.path, Arg.str dev.type_name, Arg.int dev.vendor_id,
              Arg.int dev.product_id]]⟩)
    ∧ (∀ (list : List tempered_device_list) (s : σ),
      main_devices b options list s
        = ⟨(), s, (select list options.devices).map enumerate_report⟩)
    ∧ (∀ (list : List tempered_device_list) (s : σ),
      List.countP is_stdout (main_devices b options list s).out
        = List.countP (fun r => r.2.isSome) (select list options.devices)
      ∧ List.countP is_call (main_devices b options list s).out = 0)
    ∧ ∀ (g : getopt_run) (s s2 s3 : σ) (list : List tempered_device_list) (err : String),
      (parse_options b g s).val = some options →
      b.tempered_init (parse_options b g s).st = (none, s2) →
      b.tempered_enumerate s2 = ((list, err), s3) → list ≠ [] →
      List.countP is_stdout (main b g s).out
        = List.countP (fun r => r.2.isSome) (select list options.devices) := by
  have hdev : ∀ (list : List tempered_device_list) (s : σ),
      main_devices b options list s
        = ⟨(), s, (select list options.devices).map enumerate_report⟩ := by
    intro list s
    rw [main_devices_eq]
    exact seq_all_enumerate b options henum _ s
  have hcount : ∀ (list : List tempered_device_list) (s : σ),
      List.countP is_stdout (main_devices b options list s).out
        = List.countP (fun r => r.2.isSome) (select list options.devices)
      ∧ List.countP is_call (main_devices b options list s).out = 0 := by
    intro list s
    rw [hdev]
    generalize select list options.devices = l
    induction l with
    | nil => simp
    | cons r rest ih =>
      rcases r with ⟨path, _ | dev⟩
      · simp [List.countP_cons, enumerate_report, not_found_line, is_stdout, is_call] at ih ⊢
        exact ih
      · simp [List.countP_cons, enumerate_report, enumerate_line, is_stdout, is_call] at ih ⊢
        exact ih
  refine ⟨?_, hdev, hcount, ?_⟩
  · intro dev s
    exact print_device_enumerate b options dev s henum
  · intro g s s2 s3 list err hparse hinit henum' hlist
    have hquiet : List.countP is_stdout (parse_options b g s).out = 0 := by
      rw [List.countP_eq_zero]
      intro e he
      simp [(parse_options_quiet b g s options hparse e he).1]
    rw [main_run b g s s2 s3 options list err hparse hinit henum' hlist]
    simp only [List.countP_append, List.countP_cons, List.countP_nil, hquiet,
      main_exit_no_stdout, (hcount list s3).1, is_stdout]
    simp

/-- Claim C4 on the request `z`, `b`, `a` in enumerate mode. -/
theorem enumerate_mode_one_line_per_device_witness :
    demo_enumerate.enumerate = true
    ∧ main_devices demo_backend demo_enumerate [dev_a, dev_b, dev_c] (0 : Nat)
      = ⟨(), 0, [not_found_line "z", enumerate_line dev_b, enumerate_line dev_a]⟩ :=
  ⟨rfl, (enumerate_mode_one_line_per_device demo_backend demo_enumerate rfl).2.1
    [dev_a, dev_b, dev_c] 0⟩

/-- Claim C5.  Outside enumerate mode `print_device` does one of three things.  When
`tempered_open` fails: that call and one `Could not open device` error line, nothing
else.  When `tempered_read_sensors` fails: the two calls in the argument list of line
181, in whichever order the compiler makes them, one `Failed to read the sensors` error
line with what they returned, no sensor is queried, nothing is written on standard
output, and `tempered_close` is the last call.  When it succeeds: the
sensor loop, which opens and closes nothing, and then `tempered_close` as the last
call.  In every case there is one `tempered_open` call, and the number of
`tempered_close` calls is the number of `tempered_open` calls that gave a handle. -/
theorem print_device_closes_what_it_opened (b : Backend σ H V) (options : my_options V)
    (dev : tempered_device_list) (s : σ) (hmode : options.enumerate = false) :
    (∀ (err : String) (s1 : σ), b.tempered_open s dev = (Except.error err, s1) →
      print_device b options dev s =
        ⟨(), s1, [Event.call (Call.tempered_open dev none),
          Event.stderr "%s: Could not open device: %s\n" [Arg.str dev.path, Arg.str err]]⟩)
    ∧ (∀ (device : H) (s1 s2 : σ),
        b.tempered_open s dev = (Except.ok device, s1) →
        b.tempered_read_sensors s1 device = (false, s2) →
        (∃ path msg : String,
          (print_device b options dev s).out =
            [Event.call (Call.tempered_open dev (some device)),
              Event.call (Call.tempered_read_sensors device false),
              Event.call (Call.tempered_get_device_path device path),
              Event.call (Call.tempered_error device msg),
              Event.stderr "%s: Failed to read the sensors: %s\n" [Arg.str path, Arg.str msg],
              Event.call (Call.tempered_close device)]
          ∨ (print_device b options dev s).out =
            [Event.call (Call.tempered_open dev (some device)),
              Event.call (Call.tempered_read_sensors device false),
              Event.call (Call.tempered_error device msg),
              Event.call (Call.tempered_get_device_path device path),
              Event.stderr "%s: Failed to read the sensors: %s\n" [Arg.str path, Arg.str msg],
              Event.call (Call.tempered_close device)])
        ∧ List.countP is_stderr (print_device b options dev s).out = 1
        ∧ List.countP is_stdout (print_device b options dev s).out = 0
        ∧ (print_device b options dev s).out.getLast?
            = some (Event.call (Call.tempered_close device))
        ∧ (b.error_before_path = false → ∀ (path msg : String) (s3 s4 : σ),
            b.tempered_get_device_path s2 device = (path, s3) →
            b.tempered_error s3 device = (msg, s4) →
            print_device b options dev s =
              ⟨(), b.tempered_close s4 device,
                [Event.call (Call.tempered_open dev (some device)),
                  Event.call (Call.tempered_read_sensors device false),
                  Event.call (Call.tempered_get_device_path device path),
                  Event.call (Call.tempered_error device msg),
                  Event.stderr "%s: Failed to read the sensors: %s\n"
                    [Arg.str path, Arg.str msg],
                  Event.call (Call.tempered_close device)]⟩)
        ∧ (b.error_before_path = true → ∀ (path msg : String) (s3 s4 : σ),
            b.tempered_error s2 device = (msg, s3) →
            b.tempered_get_device_path s3 device = (path, s4) →
            print_device b options dev s =
              ⟨(), b.tempered_close s4 device,
                [Event.call (Call.tempered_open dev (some device)),
                  Event.call (Call.tempered_read_sensors device false),
                  Event.call (Call.tempered_error device msg),
                  Event.call (Call.tempered_get_device_path device path),
                  Event.stderr "%s: Failed to read the sensors: %s\n"
                    [Arg.str path, Arg.str msg],
                  Event.call (Call.tempered_close device)]⟩))
    ∧ (∀ (device : H) (sensors : Int) (s1 s2 s3 : σ),
        b.tempered_open s dev = (Except.ok device, s1) →
        b.tempered_read_sensors s1 device = (true, s2) →
        b.tempered_get_sensor_count s2 device = (sensors, s3) →
        print_device b options dev s =
          ⟨(), b.tempered_close
              (print_device_loop b options device sensors sensors.toNat 0 s3).st device,
            [Event.call (Call.tempered_open dev (some device)),
              Event.call (Call.tempered_read_sensors device true),
              Event.call (Call.tempered_get_sensor_count device sensors)]
            ++ (print_device_loop b options device sensors sensors.toNat 0 s3).out
            ++ [Event.call (Call.tempered_close device)]⟩
        ∧ List.countP is_open
            (print_device_loop b options device sensors sensors.toNat 0 s3).out = 0
        ∧ List.countP is_close
            (print_device_loop b options device sensors sensors.toNat 0 s3).out = 0)
    ∧ List.countP is_open (print_device b options dev s).out = 1
    ∧ List.countP is_close (print_device b options dev s).out
        = List.countP is_open_ok (print_device b options dev s).out := by
  have hloop : ∀ (device : H) (sensors : Int) (s3 : σ),
      List.countP is_open
          (print_device_loop b options device sensors sensors.toNat 0 s3).out = 0
      ∧ List.countP is_close
          (print_device_loop b options device sensors sensors.toNat 0 s3).out = 0 := by
    intro device sensors s3
    constructor
    · rw [List.countP_eq_zero]
      intro e he
      have hs := print_device_loop_events b options device sensors s3 e he
      cases e with
      | stdout fmt args => simp [is_open]
      | stderr fmt args => simp [is_open]
      | call c => cases c <;> simp_all [is_open, sensor_event]
    · rw [List.countP_eq_zero]
      intro e he
      have hs := print_device_loop_events b options device sensors s3 e he
      cases e with
      | stdout fmt args => simp [is_close]
      | stderr fmt args => simp [is_close]
      | call c => cases c <;> simp_all [is_close, sensor_event]
  refine ⟨?_, ?_, ?_, ?_⟩
  · intro err s1 hopen
    exact print_device_open_failed b options dev s s1 err hmode hopen
  · intro device s1 s2 hopen hread
    have hany :=
      print_device_read_failed_any_order b options dev s s1 s2 device hmode hopen hread
    refine ⟨hany, ?_, ?_, ?_, ?_, ?_⟩
    · obtain ⟨path, msg, hout | hout⟩ := hany <;>
        · rw [hout]
          simp [is_stderr, List.countP_cons]
    · obtain ⟨path, msg, hout | hout⟩ := hany <;>
        · rw [hout]
          simp [is_stdout, List.countP_cons]
    · obtain ⟨path, msg, hout | hout⟩ := hany <;>
        · rw [hout]
          rfl
    · intro horder path msg s3 s4 hpath herr
      exact print_device_read_failed b options dev s s1 s2 s3 s4 device path msg hmode horder
        hopen hread hpath herr
    · intro horder path msg s3 s4 herr hpath
      exact print_device_read_failed_error_first b options dev s s1 s2 s3 s4 device path msg
        hmode horder hopen hread herr hpath
  · intro device sensors s1 s2 s3 hopen hread hcount
    exact ⟨print_device_read_ok b options dev s s1 s2 s3 device sensors hmode hopen hread
      hcount, hloop device sensors s3⟩
  · rcases hopen : b.tempered_open s dev with ⟨r, s1⟩
    cases r with
    | error err =>
      rw [print_device_open_failed b options dev s s1 err hmode hopen]
      simp [is_open, is_close, is_open_ok, List.countP_cons]
    | ok device =>
      rcases hread : b.tempered_read_sensors s1 device with ⟨ok, s2⟩
      cases ok with
      | false =>
        obtain ⟨path, msg, hout | hout⟩ :=
          print_device_read_failed_any_order b options dev s s1 s2 device hmode hopen hread
        · rw [hout]
          simp [is_open, is_close, is_open_ok, List.countP_cons]
        · rw [hout]
          simp [is_open, is_close, is_open_ok, List.countP_cons]
      | true =>
        rw [print_device_read_ok b options dev s s1 s2 _ device _ hmode hopen hread rfl]
        have hopen_ok : List.countP is_open_ok
            (print_device_loop b options device (b.tempered_get_sensor_count s2 device).1
              (b.tempered_get_sensor_count s2 device).1.toNat 0
              (b.tempered_get_sensor_count s2 device).2).out = 0 := by
          rw [List.countP_eq_zero]
          intro e he
          have hs := print_device_loop_events b options device _ _ e he
          cases e with
          | stdout fmt args => simp [is_open_ok]
          | stderr fmt args => simp [is_open_ok]
          | call c => cases c <;> simp_all [is_open_ok, sensor_event]
        simp [is_open, is_close, is_open_ok, List.countP_cons, hloop, hopen_ok]

/-- Claim C5 on device `b`, which opens and cannot be read; `tempered_error` is called first. -/
theorem print_device_closes_what_it_opened_witness :
    print_device demo_backend demo_options dev_b (0 : Nat)
      = ⟨(), 5,
          [Event.call (Call.tempered_open dev_b (some "b")),
            Event.call (Call.tempered_read_sensors "b" false),
            Event.call (Call.tempered_error "b" "io"),
            Event.call (Call.tempered_get_device_path "b" "b"),
            Event.stderr "%s: Failed to read the sensors: %s\n" [Arg.str "b", Arg.str "io"],
            Event.call (Call.tempered_close "b")]⟩ :=
  ((print_device_closes_what_it_opened demo_backend demo_options dev_b 0 rfl).2.1
    "b" 1 2 rfl rfl).2.2.2.2.2 rfl "b" "io" 3 4 rfl rfl

/-- Claim C6.  The exit code of `main` is 0 or 1, and it is 1 exactly when
`parse_options` gives no options, or the run has a failed `tempered_init` call, or the
run has a failed `tempered_exit` call.  Once `tempered_init` has succeeded the exit code
is decided by `tempered_exit` alone: a failed enumeration, an unmatched path, and
failures to open, read or fetch do not change it. -/
theorem main_exit_code (b : Backend σ H V) (g : getopt_run) (s : σ) :
    (((main b g s).val = 0 ∨ (main b g s).val = 1)
    ∧ ((main b g s).val = 1 ↔
        (parse_options b g s).val = none
        ∨ Event.call (Call.tempered_init false) ∈ (main b g s).out
        ∨ Event.call (Call.tempered_exit false) ∈ (main b g s).out))
    ∧ (∀ (options : my_options V) (s2 : σ), (parse_options b g s).val = some options →
        b.tempered_init (parse_options b g s).st = (none, s2) →
        ((main b g s).val = 1 ↔
          (b.tempered_exit (main_enumerate b options s2).st).1 ≠ none)) := by
  have hp := (parse_options_events b g s).2
  refine ⟨?_, ?_⟩
  swap
  · intro options s2 hparse hinit
    rw [main_init_ok b g s _ s2 options hparse rfl hinit]
    rcases hexit : b.tempered_exit (main_enumerate b options s2).st with ⟨_ | err, s3⟩
    · simp [main_exit, tempered_exit, hexit]
    · simp [main_exit, tempered_exit, hexit, eprintf]
  cases hparse : (parse_options b g s).val with
  | none => simp [main, hparse]
  | some options =>
    rcases hinit : b.tempered_init (parse_options b g s).st with ⟨_ | err, s2⟩
    · rw [main_init_ok b g s _ s2 options hparse rfl hinit]
      have hmid := main_enumerate_no_lifecycle_failure b options s2 false
      have hp1 : Event.call (Call.tempered_init false) ∉ (parse_options b g s).out := by
        intro hmem
        have := hp _ hmem
        simp [is_lifecycle] at this
      have hp2 : Event.call (Call.tempered_exit false) ∉ (parse_options b g s).out := by
        intro hmem
        have := hp _ hmem
        simp [is_lifecycle] at this
      rcases hexit : b.tempered_exit (main_enumerate b options s2).st with ⟨_ | err, s3⟩
      · simp [main_exit, tempered_exit, hexit, hp1, hp2, hmid.1, hmid.2]
      · simp [main_exit, tempered_exit, hexit, eprintf]
    · simp [main, hparse, tempered_init, hinit, eprintf]

/-- Claim C6 on the empty command line. -/
theorem main_exit_code_witness :
    (main demo_backend ⟨[], []⟩ (0 : Nat)).val = 1
      ↔ (demo_backend.tempered_exit
          (main_enumerate demo_backend demo_options 1).st).1 ≠ none :=
  (main_exit_code demo_backend ⟨[], []⟩ 0).2 demo_options 1 rfl rfl

/-- Claim C7, as amended.  When `getopt_long` reports `-h` / `--help` and every option
it reported before is one of `-e`, `-b`, `-c`, `-r`, the program prints the usage text,
makes no library call (no `tempered_init`, `tempered_enumerate` or `tempered_exit`), and
exits with code 1: `parse_options` returns `NULL`, which `main` answers with 1. -/
theorem main_help (b : Backend σ H V) (g : getopt_run) (s : σ)
    (pre post : List (Int × String)) (arg : String)
    (hres : g.results = pre ++ (opt_char 'h', arg) :: post)
    (hpre : ∀ r ∈ pre, r.1 = opt_char 'e' ∨ r.1 = opt_char 'b' ∨ r.1 = opt_char 'c'
      ∨ r.1 = opt_char 'r') :
    main b g s = ⟨1, s, [Event.stdout usage_text []]⟩
    ∧ (parse_options b g s).val = none
    ∧ List.countP is_call (main b g s).out = 0 := by
  have hloop := parse_options_loop_help (H := H) (V := V) pre post arg
    ⟨false, false, none, none⟩ s hpre
  have hparse : parse_options b g s = ⟨none, s, [Event.stdout usage_text []]⟩ := by
    simp [parse_options, hres, hloop]
  have hmain : main b g s = ⟨1, s, [Event.stdout usage_text []]⟩ := by
    simp [main, hparse]
  refine ⟨hmain, by rw [hparse], ?_⟩
  rw [hmain]
  simp [is_call, List.countP_cons]

/-- The claim C7 as written fails: the command line `tempered -h` prints the usage text
and the exit code is not 0, and for `tempered -x -h`, where `getopt_long` reports the
unknown option first, no usage text is printed at all. -/
theorem help_exits_nonzero :
    (main demo_backend help_only (0 : Nat)).out = [Event.stdout usage_text []]
    ∧ (main demo_backend help_only (0 : Nat)).val ≠ 0
    ∧ (main demo_backend invalid_then_help (0 : Nat)).out = []
    ∧ (main demo_backend invalid_then_help (0 : Nat)).val ≠ 0 := by
  refine ⟨?_, ?_, ?_, ?_⟩ <;>
    simp [main, parse_options, parse_options_loop, help_only, invalid_then_help, opt_char,
      show_help, printf]

/-- The amended claim C7 on the command line `tempered -b -h a`. -/
theorem main_help_witness :
    main demo_backend batch_then_help (0 : Nat) = ⟨1, 0, [Event.stdout usage_text []]⟩ :=
  (main_help demo_backend batch_then_help 0 [(opt_char 'b', "")] [] "" rfl
    (by simp)).1

/-- Claim C8.  A sensor whose type has both flags and whose two fetches succeed:
`print_device_sensor` writes the combined line, whose values are, in this order, the
temperature passed through the temperature table, the humidity passed through the
humidity table, and the dew point of these two calibrated values.  In batch mode the
line has the format of line 148 (path, three values, no sensor index), otherwise the
format of line 151 (path, sensor index, three values); the two formats differ and carry
the same three values. -/
theorem print_device_sensor_combined_line (b : Backend σ H V) (options : my_options V)
    (device : H) (sensor : Int) (s s1 s2 s3 s4 : σ) (type : Nat) (path : String)
    (tempC rel_hum : V)
    (htype : b.tempered_get_sensor_type s device sensor = (type, s1))
    (hT : type &&& b.TEMPERED_SENSOR_TYPE_TEMPERATURE ≠ 0)
    (hH : type &&& b.TEMPERED_SENSOR_TYPE_HUMIDITY ≠ 0)
    (hpath : b.tempered_get_device_path s1 device = (path, s2))
    (htemp : b.tempered_get_temperature s2 device sensor = (some tempC, s3))
    (hhum : b.tempered_get_humidity s3 device sensor = (some rel_hum, s4)) :
    print_device_sensor b options device sensor s =
      ⟨(), s4,
        [Event.call (Call.tempered_get_sensor_type device sensor type),
          Event.call (Call.tempered_get_device_path device path),
          Event.call (Call.tempered_get_temperature device sensor (some tempC))]
        ++ calibration_calls b options.calibtemp_count options.calibtemp_values tempC
        ++ [Event.call (Call.tempered_get_humidity device sensor (some rel_hum))]
        ++ calibration_calls b options.calibrelh_count options.calibrelh_values rel_hum
        ++ [Event.call (Call.tempered_util__get_dew_point
              (apply_calibration b options.calibtemp_count options.calibtemp_values tempC)
              (apply_calibration b options.calibrelh_count options.calibrelh_values rel_hum)
              (b.tempered_util__get_dew_point
                (apply_calibration b options.calibtemp_count options.calibtemp_values tempC)
                (apply_calibration b options.calibrelh_count options.calibrelh_values
                  rel_hum))),
            if options.batch = true then
              Event.stdout "'%s', %.2f, %.2f, %.2f\n"
                [Arg.str path,
                  Arg.flt (apply_calibration b options.calibtemp_count
                    options.calibtemp_values tempC),
                  Arg.flt (apply_calibration b options.calibrelh_count
                    options.calibrelh_values rel_hum),
                  Arg.flt (b.tempered_util__get_dew_point
                    (apply_calibration b options.calibtemp_count options.calibtemp_values
                      tempC)
                    (apply_calibration b options.calibrelh_count options.calibrelh_values
                      rel_hum))]
            else
              Event.stdout
                "%s %i: temperature %.2f C, relative humidity %.1f%%, dew point %.1f C\n"
                [Arg.str path, Arg.int sensor,
                  Arg.flt (apply_calibration b options.calibtemp_count
                    options.calibtemp_values tempC),
                  Arg.flt (apply_calibration b options.calibrelh_count
                    options.calibrelh_values rel_hum),
                  Arg.flt (b.tempered_util__get_dew_point
                    (apply_calibration b options.calibtemp_count options.calibtemp_values
                      tempC)
                    (apply_calibration b options.calibrelh_count options.calibrelh_values
                      rel_hum))]]⟩
    ∧ "'%s', %.2f, %.2f, %.2f\n"
        ≠ "%s %i: temperature %.2f C, relative humidity %.1f%%, dew point %.1f C\n" := by
  refine ⟨?_, by decide⟩
  cases hb : options.batch <;> cases hct : options.calibtemp_values <;>
    cases hcr : options.calibrelh_values <;>
    simp [print_device_sensor, print_device_sensor_temperature, print_device_sensor_humidity,
      print_device_sensor_output, tempered_get_sensor_type, tempered_get_device_path,
      tempered_get_temperature, tempered_get_humidity, tempered_util__get_dew_point,
      tempered_util__calibrate_value, printf, calibration_calls, apply_calibration,
      htype, hpath, htemp, hhum, hT, hH, hb, hct, hcr]

/-- Claim C8 on sensor 1 of device `a`. -/
theorem print_device_sensor_combined_line_witness :
    print_device_sensor demo_backend demo_options "a" 1 (0 : Nat)
      = ⟨(), 4,
          [Event.call (Call.tempered_get_sensor_type "a" 1 3),
            Event.call (Call.tempered_get_device_path "a" "a"),
            Event.call (Call.tempered_get_temperature "a" 1 (some 21)),
            Event.call (Call.tempered_get_humidity "a" 1 (some 40)),
            Event.call (Call.tempered_util__get_dew_point 21 40 (-19)),
            Event.stdout
              "%s %i: temperature %.2f C, relative humidity %.1f%%, dew point %.1f C\n"
              [Arg.str "a", Arg.int 1, Arg.flt 21, Arg.flt 40, Arg.flt (-19)]]⟩ :=
  (print_device_sensor_combined_line demo_backend demo_options "a" 1 0 1 2 3 4 3 "a" 21 40
    rfl (by decide) (by decide) rfl rfl rfl).1

/-- Claim C9.  Without a temperature table (`calibtemp_values` is `NULL`) the
temperature block of `print_device_sensor` stores the fetched value as it is and calls
nothing but the fetch; every temperature that `print_device_sensor` reports is a value
`tempered_get_temperature` returned; and every call of the calibration function is made
with the humidity table on a fetched humidity, at most one call when that table is
configured and none when it is not.  And the value is what is written: when the
temperature of a sensor is fetched, the one line `print_device_sensor` writes on standard
output carries the fetched value itself as its temperature, in the combined line (batch
or human layout) when the humidity flag is left and in the temperature-only line
otherwise; for a sensor with the temperature flag alone the whole run of
`print_device_sensor` is the three calls and that line.  The same holds with the two
quantities exchanged.  Where a failed fetch of the other quantity clears a flag, the two
flag constants of `tempered.h` are taken to be bit masks with no bit in common. -/
theorem calibration_identity (b : Backend σ H V) (options : my_options V) (device : H)
    (sensor : Int) :
    ((options.calibtemp_values = none →
      (∀ (path : String) (l : sensor_locals V) (s s' : σ) (v : V),
        l.type &&& b.TEMPERED_SENSOR_TYPE_TEMPERATURE ≠ 0 →
        b.tempered_get_temperature s device sensor = (some v, s') →
        print_device_sensor_temperature b options device sensor path l s
          = ⟨⟨l.type, v, l.rel_hum⟩, s',
              [Event.call (Call.tempered_get_temperature device sensor (some v))]⟩)
      ∧ ∀ s : σ,
        (∀ e ∈ (print_device_sensor b options device sensor s).out,
          ∀ v, reported_temperature e = some v →
            Event.call (Call.tempered_get_temperature device sensor (some v))
              ∈ (print_device_sensor b options device sensor s).out)
        ∧ (∀ (x : V) (c : Int) (values : List V) (r : V),
            Event.call (Call.tempered_util__calibrate_value x c values r)
              ∈ (print_device_sensor b options device sensor s).out →
            options.calibrelh_values = some values ∧ c = options.calibrelh_count
            ∧ Event.call (Call.tempered_get_humidity device sensor (some x))
              ∈ (print_device_sensor b options device sensor s).out)
        ∧ List.countP is_calibrate (print_device_sensor b options device sensor s).out
            ≤ (if options.calibrelh_values.isSome then 1 else 0))
    ∧ (options.calibrelh_values = none →
      (∀ (path : String) (l : sensor_locals V) (s s' : σ) (v : V),
        l.type &&& b.TEMPERED_SENSOR_TYPE_HUMIDITY ≠ 0 →
        b.tempered_get_humidity s device sensor = (some v, s') →
        print_device_sensor_humidity b options device sensor path l s
          = ⟨⟨l.type, l.tempC, v⟩, s',
              [Event.call (Call.tempered_get_humidity device sensor (some v))]⟩)
      ∧ ∀ s : σ,
        (∀ e ∈ (print_device_sensor b options device sensor s).out,
          ∀ v, reported_humidity e = some v →
            Event.call (Call.tempered_get_humidity device sensor (some v))
              ∈ (print_device_sensor b options device sensor s).out)
        ∧ (∀ (x : V) (c : Int) (values : List V) (r : V),
            Event.call (Call.tempered_util__calibrate_value x c values r)
              ∈ (print_device_sensor b options device sensor s).out →
            options.calibtemp_values = some values ∧ c = options.calibtemp_count
            ∧ Event.call (Call.tempered_get_temperature device sensor (some x))
              ∈ (print_device_sensor b options device sensor s).out)
        ∧ List.countP is_calibrate (print_device_sensor b options device sensor s).out
            ≤ (if options.calibtemp_values.isSome then 1 else 0)))
    ∧ (options.calibtemp_values = none →
      (∀ (s s1 s2 s3 : σ) (type : Nat) (path : String) (v : V),
        flags_independent b →
        b.tempered_get_sensor_type s device sensor = (type, s1) →
        type &&& b.TEMPERED_SENSOR_TYPE_TEMPERATURE ≠ 0 →
        b.tempered_get_device_path s1 device = (path, s2) →
        b.tempered_get_temperature s2 device sensor = (some v, s3) →
        List.filter is_stdout (print_device_sensor b options device sensor s).out
          = [if (print_device_sensor_fetch b options device sensor s).val.2.type
                &&& b.TEMPERED_SENSOR_TYPE_HUMIDITY ≠ 0 then
              if options.batch = true then
                Event.stdout "'%s', %.2f, %.2f, %.2f\n"
                  [Arg.str path, Arg.flt v,
                    Arg.flt (print_device_sensor_fetch b options device sensor s).val.2.rel_hum,
                    Arg.flt (b.tempered_util__get_dew_point v
                      (print_device_sensor_fetch b options device sensor s).val.2.rel_hum)]
              else
                Event.stdout
                  "%s %i: temperature %.2f C, relative humidity %.1f%%, dew point %.1f C\n"
                  [Arg.str path, Arg.int sensor, Arg.flt v,
                    Arg.flt (print_device_sensor_fetch b options device sensor s).val.2.rel_hum,
                    Arg.flt (b.tempered_util__get_dew_point v
                      (print_device_sensor_fetch b options device sensor s).val.2.rel_hum)]
            else
              Event.stdout "%s %i: temperature %.2f C\n"
                [Arg.str path, Arg.int sensor, Arg.flt v]])
      ∧ (∀ (s s1 s2 s3 : σ) (type : Nat) (path : String) (v : V),
        b.tempered_get_sensor_type s device sensor = (type, s1) →
        type &&& b.TEMPERED_SENSOR_TYPE_TEMPERATURE ≠ 0 →
        type &&& b.TEMPERED_SENSOR_TYPE_HUMIDITY = 0 →
        b.tempered_get_device_path s1 device = (path, s2) →
        b.tempered_get_temperature s2 device sensor = (some v, s3) →
        print_device_sensor b options device sensor s
          = ⟨(), s3,
              [Event.call (Call.tempered_get_sensor_type device sensor type),
                Event.call (Call.tempered_get_device_path device path),
                Event.call (Call.tempered_get_temperature device sensor (some v)),
                Event.stdout "%s %i: temperature %.2f C\n"
                  [Arg.str path, Arg.int sensor, Arg.flt v]]⟩))
    ∧ (options.calibrelh_values = none →
      (∀ (s s1 s2 s4 : σ) (type : Nat) (path : String) (v : V),
        flags_independent b →
        b.tempered_get_sensor_type s device sensor = (type, s1) →
        type &&& b.TEMPERED_SENSOR_TYPE_HUMIDITY ≠ 0 →
        b.tempered_get_device_path s1 device = (path, s2) →
        b.tempered_get_humidity
          (print_device_sensor_temperature b options device sensor path
            ⟨type, default, default⟩ s2).st device sensor = (some v, s4) →
        List.filter is_stdout (print_device_sensor b options device sensor s).out
          = [if (print_device_sensor_fetch b options device sensor s).val.2.type
                &&& b.TEMPERED_SENSOR_TYPE_TEMPERATURE ≠ 0 then
              if options.batch = true then
                Event.stdout "'%s', %.2f, %.2f, %.2f\n"
                  [Arg.str path,
                    Arg.flt (print_device_sensor_fetch b options device sensor s).val.2.tempC,
                    Arg.flt v,
                    Arg.flt (b.tempered_util__get_dew_point
                      (print_device_sensor_fetch b options device sensor s).val.2.tempC v)]
              else
                Event.stdout
                  "%s %i: temperature %.2f C, relative humidity %.1f%%, dew point %.1f C\n"
                  [Arg.str path, Arg.int sensor,
                    Arg.flt (print_device_sensor_fetch b options device sensor s).val.2.tempC,
                    Arg.flt v,
                    Arg.flt (b.tempered_util__get_dew_point
                      (print_device_sensor_fetch b options device sensor s).val.2.tempC v)]
            else
              Event.stdout "%s %i: relative humidity %.1f%%\n"
                [Arg.str path, Arg.int sensor, Arg.flt v]])
      ∧ (∀ (s s1 s2 s3 : σ) (type : Nat) (path : String) (v : V),
        b.tempered_get_sensor_type s device sensor = (type, s1) →
        type &&& b.TEMPERED_SENSOR_TYPE_TEMPERATURE = 0 →
        type &&& b.TEMPERED_SENSOR_TYPE_HUMIDITY ≠ 0 →
        b.tempered_get_device_path s1 device = (path, s2) →
        b.tempered_get_humidity s2 device sensor = (some v, s3) →
        print_device_sensor b options device sensor s
          = ⟨(), s3,
              [Event.call (Call.tempered_get_sensor_type device sensor type),
                Event.call (Call.tempered_get_device_path device path),
                Event.call (Call.tempered_get_humidity device sensor (some v)),
                Event.stdout "%s %i: relative humidity %.1f%%\n"
                  [Arg.str path, Arg.int sensor, Arg.flt v]]⟩)) := by
  refine ⟨?_, ?_, ?_⟩
  · constructor
    · intro hnone
      refine ⟨?_, ?_⟩
      · intro path l s s' v hflag hfetch
        simp [print_device_sensor_temperature, hflag, tempered_get_temperature, hfetch, hnone]
      · intro s
        obtain ⟨hT, _, hstd, hcal, hcount⟩ := print_device_sensor_fetch_sound b options device sensor s
        rw [print_device_sensor_out]
        refine ⟨?_, ?_, ?_⟩
        · intro e he v hv
          rcases List.mem_append.mp he with he | he
          · have h1 := hstd e he
            have h2 := (reported_is_stdout e).1 v hv
            rw [h1] at h2
            exact Bool.noConfusion h2
          · obtain ⟨hflag, hval⟩ := (output_reports b options sensor _ _ _ e he).2.1 v hv
            obtain ⟨v0, hmem, hv0⟩ := hT hflag
            rw [hnone] at hv0
            have hvv : v = v0 := hval.trans hv0
            rw [hvv]
            exact List.mem_append_left _ hmem
        · intro x c values r he
          rcases List.mem_append.mp he with he | he
          · rcases hcal x c values r he with ⟨h1, _, _⟩ | ⟨h1, h2, h3⟩
            · rw [hnone] at h1
              exact Option.noConfusion h1
            · exact ⟨h1, h2, List.mem_append_left _ h3⟩
          · have h1 := (output_reports b options sensor _ _ _ _ he).1
            simp [is_calibrate] at h1
        · have hzero : List.countP is_calibrate (print_device_sensor_output b options sensor
              (print_device_sensor_fetch b options device sensor s).val.1
              (print_device_sensor_fetch b options device sensor s).val.2
              (print_device_sensor_fetch b options device sensor s).st).out = 0 := by
            rw [List.countP_eq_zero]
            intro e he
            simp [(output_reports b options sensor _ _ _ e he).1]
          rw [List.countP_append, hzero]
          simpa [hnone] using hcount
    · intro hnone
      refine ⟨?_, ?_⟩
      · intro path l s s' v hflag hfetch
        simp [print_device_sensor_humidity, hflag, tempered_get_humidity, hfetch, hnone]
      · intro s
        obtain ⟨_, hH, hstd, hcal, hcount⟩ := print_device_sensor_fetch_sound b options device sensor s
        rw [print_device_sensor_out]
        refine ⟨?_, ?_, ?_⟩
        · intro e he v hv
          rcases List.mem_append.mp he with he | he
          · have h1 := hstd e he
            have h2 := (reported_is_stdout e).2 v hv
            rw [h1] at h2
            exact Bool.noConfusion h2
          · obtain ⟨hflag, hval⟩ := (output_reports b options sensor _ _ _ e he).2.2 v hv
            obtain ⟨v0, hmem, hv0⟩ := hH hflag
            rw [hnone] at hv0
            have hvv : v = v0 := hval.trans hv0
            rw [hvv]
            exact List.mem_append_left _ hmem
        · intro x c values r he
          rcases List.mem_append.mp he with he | he
          · rcases hcal x c values r he with ⟨h1, h2, h3⟩ | ⟨h1, _, _⟩
            · exact ⟨h1, h2, List.mem_append_left _ h3⟩
            · rw [hnone] at h1
              exact Option.noConfusion h1
          · have h1 := (output_reports b options sensor _ _ _ _ he).1
            simp [is_calibrate] at h1
        · have hzero : List.countP is_calibrate (print_device_sensor_output b options sensor
              (print_device_sensor_fetch b options device sensor s).val.1
              (print_device_sensor_fetch b options device sensor s).val.2
              (print_device_sensor_fetch b options device sensor s).st).out = 0 := by
            rw [List.countP_eq_zero]
            intro e he
            simp [(output_reports b options sensor _ _ _ e he).1]
          rw [List.countP_append, hzero]
          simpa [hnone] using hcount
  · intro hnone
    refine ⟨?_, ?_⟩
    · intro s s1 s2 s3 type path v hflags htype hT hpath htemp
      obtain ⟨hp, hv, hflag⟩ := fetch_temperature_value b options device sensor s s1 s2 s3
        type path v hflags htype hT hpath htemp
      rw [hnone] at hv
      have hv' : (print_device_sensor_fetch b options device sensor s).val.2.tempC = v := hv
      rw [print_device_sensor_stdout, hp]
      simp only [sensor_line, hflag, hv', ne_eq, not_false_eq_true, true_and]
      by_cases hH : (print_device_sensor_fetch b options device sensor s).val.2.type
          &&& b.TEMPERED_SENSOR_TYPE_HUMIDITY = 0 <;>
        simp [hH]
    · intro s s1 s2 s3 type path v htype hT hH hpath htemp
      simp [print_device_sensor, print_device_sensor_temperature, print_device_sensor_humidity,
        print_device_sensor_output, tempered_get_sensor_type, tempered_get_device_path,
        tempered_get_temperature, printf, htype, hpath, htemp, hT, hH, hnone]
  · intro hnone
    refine ⟨?_, ?_⟩
    · intro s s1 s2 s4 type path v hflags htype hH hpath hhum
      obtain ⟨hp, hv, hflag⟩ := fetch_humidity_value b options device sensor s s1 s2 s4
        type path v hflags htype hH hpath hhum
      rw [hnone] at hv
      have hv' : (print_device_sensor_fetch b options device sensor s).val.2.rel_hum = v := hv
      rw [print_device_sensor_stdout, hp]
      simp only [sensor_line, hflag, hv', ne_eq, not_false_eq_true, and_true]
      by_cases hT : (print_device_sensor_fetch b options device sensor s).val.2.type
          &&& b.TEMPERED_SENSOR_TYPE_TEMPERATURE = 0 <;>
        simp [hT]
    · intro s s1 s2 s3 type path v htype hT hH hpath hhum
      simp [print_device_sensor, print_device_sensor_temperature, print_device_sensor_humidity,
        print_device_sensor_output, tempered_get_sensor_type, tempered_get_device_path,
        tempered_get_humidity, printf, htype, hpath, hhum, hT, hH, hnone]

/-- Claim C9 on sensor 1 of device `a`: the line carries the fetched temperature 21. -/
theorem calibration_identity_witness :
    List.filter is_stdout (print_device_sensor demo_backend demo_options "a" 1 (0 : Nat)).out
      = [Event.stdout
          "%s %i: temperature %.2f C, relative humidity %.1f%%, dew point %.1f C\n"
          [Arg.str "a", Arg.int 1, Arg.flt 21, Arg.flt 40, Arg.flt (-19)]] :=
  ((calibration_identity demo_backend demo_options "a" 1).2.1 rfl).1 0 1 2 3 3 "a" 21
    ⟨by decide, by decide, by decide⟩ rfl (by decide) rfl rfl

/-- Claim C10.  Outside enumerate mode, for a device that opens and reads, with
`sensors` the count the library reports: `print_device` runs `print_device_sensor` on
the indices `0, 1, .., sensors - 1` in ascending order between the three opening calls
and `tempered_close`, and writes `sensors` lines on standard output, none when
`sensors` is zero or less.  Every sensor, whatever the library answers, gives one line
on standard output and as many error lines as it has failed fetches, at most two.  The
line is the one the flags left at line 146 determine: both flags give the combined line
(batch or human layout) with the two locals and their dew point, the temperature flag
alone the temperature-only line, the humidity flag alone the humidity-only line, no flag
the line `no sensor data available`.  A flag that is left belongs to a fetch that
succeeded, whose value, calibrated when a table is configured, is the local; a fetch
that failed has cleared its flag. -/
theorem print_device_one_line_per_sensor (b : Backend σ H V) (options : my_options V)
    (dev : tempered_device_list) (device : H) (sensors : Int) (s s1 s2 s3 : σ)
    (hmode : options.enumerate = false)
    (hopen : b.tempered_open s dev = (Except.ok device, s1))
    (hread : b.tempered_read_sensors s1 device = (true, s2))
    (hcount : b.tempered_get_sensor_count s2 device = (sensors, s3)) :
    (print_device b options dev s).out =
        [Event.call (Call.tempered_open dev (some device)),
          Event.call (Call.tempered_read_sensors device true),
          Event.call (Call.tempered_get_sensor_count device sensors)]
        ++ (seq_all ((List.range sensors.toNat).map
              (fun (i : Nat) => print_device_sensor b options device (i : Int))) s3).out
        ++ [Event.call (Call.tempered_close device)]
    ∧ List.countP is_stdout (print_device b options dev s).out = sensors.toNat
    ∧ (sensors ≤ 0 → List.countP is_stdout (print_device b options dev s).out = 0)
    ∧ List.countP is_stderr (print_device b options dev s).out
        = List.countP is_failed_fetch (print_device b options dev s).out
    ∧ (∀ (sensor : Int) (t : σ),
        List.countP is_stdout (print_device_sensor b options device sensor t).out = 1
        ∧ List.countP is_stderr (print_device_sensor b options device sensor t).out
          = List.countP is_failed_fetch (print_device_sensor b options device sensor t).out
        ∧ List.countP is_failed_fetch (print_device_sensor b options device sensor t).out ≤ 2
        ∧ (print_device_sensor b options device sensor t).out
          = (print_device_sensor_fetch b options device sensor t).out
            ++ (print_device_sensor_output b options sensor
                (print_device_sensor_fetch b options device sensor t).val.1
                (print_device_sensor_fetch b options device sensor t).val.2
                (print_device_sensor_fetch b options device sensor t).st).out
        ∧ List.countP is_stdout (print_device_sensor_fetch b options device sensor t).out
          = 0)
    ∧ (∀ (sensor : Int) (t : σ) (path : String) (l : sensor_locals V),
        (print_device_sensor_fetch b options device sensor t).val = (path, l) →
        (l.type &&& b.TEMPERED_SENSOR_TYPE_TEMPERATURE ≠ 0 →
          l.type &&& b.TEMPERED_SENSOR_TYPE_HUMIDITY ≠ 0 →
          List.filter is_stdout (print_device_sensor b options device sensor t).out
            = [if options.batch = true then
                Event.stdout "'%s', %.2f, %.2f, %.2f\n"
                  [Arg.str path, Arg.flt l.tempC, Arg.flt l.rel_hum,
                    Arg.flt (b.tempered_util__get_dew_point l.tempC l.rel_hum)]
              else
                Event.stdout
                  "%s %i: temperature %.2f C, relative humidity %.1f%%, dew point %.1f C\n"
                  [Arg.str path, Arg.int sensor, Arg.flt l.tempC, Arg.flt l.rel_hum,
                    Arg.flt (b.tempered_util__get_dew_point l.tempC l.rel_hum)]])
        ∧ (l.type &&& b.TEMPERED_SENSOR_TYPE_TEMPERATURE ≠ 0 →
          l.type &&& b.TEMPERED_SENSOR_TYPE_HUMIDITY = 0 →
          List.filter is_stdout (print_device_sensor b options device sensor t).out
            = [Event.stdout "%s %i: temperature %.2f C\n"
                [Arg.str path, Arg.int sensor, Arg.flt l.tempC]])
        ∧ (l.type &&& b.TEMPERED_SENSOR_TYPE_TEMPERATURE = 0 →
          l.type &&& b.TEMPERED_SENSOR_TYPE_HUMIDITY ≠ 0 →
          List.filter is_stdout (print_device_sensor b options device sensor t).out
            = [Event.stdout "%s %i: relative humidity %.1f%%\n"
                [Arg.str path, Arg.int sensor, Arg.flt l.rel_hum]])
        ∧ (l.type &&& b.TEMPERED_SENSOR_TYPE_TEMPERATURE = 0 →
          l.type &&& b.TEMPERED_SENSOR_TYPE_HUMIDITY = 0 →
          List.filter is_stdout (print_device_sensor b options device sensor t).out
            = [Event.stdout "%s %i: no sensor data available\n"
                [Arg.str path, Arg.int sensor]])
        ∧ path = (b.tempered_get_device_path
            (b.tempered_get_sensor_type t device sensor).2 device).1
        ∧ (l.type &&& b.TEMPERED_SENSOR_TYPE_TEMPERATURE ≠ 0 →
          ∃ v, Event.call (Call.tempered_get_temperature device sensor (some v))
              ∈ (print_device_sensor b options device sensor t).out
            ∧ l.tempC = apply_calibration b options.calibtemp_count
                options.calibtemp_values v)
        ∧ (l.type &&& b.TEMPERED_SENSOR_TYPE_HUMIDITY ≠ 0 →
          ∃ v, Event.call (Call.tempered_get_humidity device sensor (some v))
              ∈ (print_device_sensor b options device sensor t).out
            ∧ l.rel_hum = apply_calibration b options.calibrelh_count
                options.calibrelh_values v)
        ∧ (Event.call (Call.tempered_get_temperature device sensor none)
            ∈ (print_device_sensor b options device sensor t).out →
          l.type &&& b.TEMPERED_SENSOR_TYPE_TEMPERATURE = 0)
        ∧ (Event.call (Call.tempered_get_humidity device sensor none)
            ∈ (print_device_sensor b options device sensor t).out →
          l.type &&& b.TEMPERED_SENSOR_TYPE_HUMIDITY = 0)) := by
  have hsensor := print_device_sensor_counts b options device
  have hout := print_device_read_ok b options dev s s1 s2 s3 device sensors hmode hopen hread
    hcount
  rw [print_device_loop_fuel] at hout
  have hlines : List.countP is_stdout (seq_all ((List.range sensors.toNat).map
      (fun (i : Nat) => print_device_sensor b options device (i : Int))) s3).out
      = sensors.toNat := by
    rw [seq_all_countP is_stdout 1]
    · simp
    · intro m hm t
      obtain ⟨i, _, rfl⟩ := List.mem_map.mp hm
      exact (hsensor i t).1
  have herrs : List.countP is_stderr (seq_all ((List.range sensors.toNat).map
      (fun (i : Nat) => print_device_sensor b options device (i : Int))) s3).out
      = List.countP is_failed_fetch (seq_all ((List.range sensors.toNat).map
      (fun (i : Nat) => print_device_sensor b options device (i : Int))) s3).out := by
    apply seq_all_countP_eq
    intro m hm t
    obtain ⟨i, _, rfl⟩ := List.mem_map.mp hm
    exact (hsensor i t).2.1
  have htotal : List.countP is_stdout (print_device b options dev s).out = sensors.toNat := by
    rw [hout]
    simp [List.countP_cons, is_stdout, hlines]
  refine ⟨by rw [hout], htotal, ?_, ?_, ?_, ?_⟩
  rotate_left 3
  · intro sensor t path l hval
    have hline := print_device_sensor_stdout b options device sensor t
    have hsound := print_device_sensor_fetch_sound b options device sensor t
    have hfailed := print_device_sensor_fetch_failed b options device sensor t
    have hmem : ∀ e : Event H V, is_stdout e = false → is_dew_point e = false →
        e ∈ (print_device_sensor b options device sensor t).out →
        e ∈ (print_device_sensor_fetch b options device sensor t).out := by
      intro e h1 h2 he
      rw [print_device_sensor_out] at he
      rcases List.mem_append.mp he with he | he
      · exact he
      · rcases output_events b options sensor _ _ _ e he with h | h
        · rw [h1] at h
          exact Bool.noConfusion h
        · rw [h2] at h
          exact Bool.noConfusion h
    have hsub : ∀ e : Event H V,
        e ∈ (print_device_sensor_fetch b options device sensor t).out →
        e ∈ (print_device_sensor b options device sensor t).out := by
      intro e he
      rw [print_device_sensor_out]
      exact List.mem_append_left _ he
    have hpath : (print_device_sensor_fetch b options device sensor t).val.1
        = (b.tempered_get_device_path
            (b.tempered_get_sensor_type t device sensor).2 device).1 := by
      simp only [print_device_sensor_fetch, run_bind, run_pure]
      rfl
    rw [hval] at hline hsound hfailed hpath
    simp only at hline hsound hfailed hpath
    refine ⟨?_, ?_, ?_, ?_, hpath, ?_, ?_, ?_, ?_⟩
    · intro hT hH
      rw [hline]
      simp [sensor_line, hT, hH]
    · intro hT hH
      rw [hline]
      simp [sensor_line, hT, hH]
    · intro hT hH
      rw [hline]
      simp [sensor_line, hT, hH]
    · intro hT hH
      rw [hline]
      simp [sensor_line, hT, hH]
    · intro hT
      obtain ⟨v, hv, hval'⟩ := hsound.1 hT
      exact ⟨v, hsub _ hv, hval'⟩
    · intro hH
      obtain ⟨v, hv, hval'⟩ := hsound.2.1 hH
      exact ⟨v, hsub _ hv, hval'⟩
    · intro he
      exact hfailed.1 (hmem _ rfl rfl he)
    · intro he
      exact hfailed.2 (hmem _ rfl rfl he)
  · intro hle
    rw [htotal]
    omega
  · rw [hout]
    simp [List.countP_cons, is_stderr, is_failed_fetch, herrs]
  · intro sensor t
    refine ⟨(hsensor sensor t).1, (hsensor sensor t).2.1, (hsensor sensor t).2.2.1, ?_, ?_⟩
    · simp only [print_device_sensor, print_device_sensor_fetch, run_bind, run_pure,
        List.append_assoc, List.append_nil]
    · have h1 := (hsensor sensor t).1
      have h2 := (output_counts b options sensor
        (print_device_sensor_fetch b options device sensor t).val.1
        (print_device_sensor_fetch b options device sensor t).val.2
        (print_device_sensor_fetch b options device sensor t).st).1
      have h3 : (print_device_sensor b options device sensor t).out
          = (print_device_sensor_fetch b options device sensor t).out
            ++ (print_device_sensor_output b options sensor
                (print_device_sensor_fetch b options device sensor t).val.1
                (print_device_sensor_fetch b options device sensor t).val.2
                (print_device_sensor_fetch b options device sensor t).st).out := by
        simp only [print_device_sensor, print_device_sensor_fetch, run_bind, run_pure,
          List.append_assoc, List.append_nil]
      rw [h3, List.countP_append, h2] at h1
      omega

/-- Claim C10 on device `a`, which has two sensors, and on its sensor 0, whose temperature cannot be fetched. -/
theorem print_device_one_line_per_sensor_witness :
    List.countP is_stdout (print_device demo_backend demo_options dev_a (0 : Nat)).out = 2
    ∧ List.filter is_stdout (print_device_sensor demo_backend demo_options "a" 0 (3 : Nat)).out
      = [Event.stdout "%s %i: relative humidity %.1f%%\n"
          [Arg.str "a", Arg.int 0, Arg.flt 40]] :=
  ⟨(print_device_one_line_per_sensor demo_backend demo_options dev_a "a" 2 0 1 2 3 rfl rfl
      rfl rfl).2.1,
    ((print_device_one_line_per_sensor demo_backend demo_options dev_a "a" 2 0 1 2 3 rfl rfl
      rfl rfl).2.2.2.2.2 0 3 "a" ⟨2, 0, 40⟩ rfl).2.2.1 (by decide) (by decide)⟩

end Claims

end TEMPered
